import Mathlib

/-!
Verification development for the NABA-Atlas inference orchestrator
(`run_naba_inference.py`).

The script is a sequential, checkpointed pipeline driver: it resolves an
atlas bundle, derives a per-subject directory layout, and runs a fixed
configuration-branched sequence of external commands, skipping a stage when
its expected output artifact already exists, and finally applies a tiered
cleanup pass.

We shallow-embed the script over an explicit filesystem model:
a path is a list of name components, a filesystem is a pair of lists
(file paths, directory paths).  External commands are opaque filesystem
transformers (`Eff`); a command either succeeds (possibly changing the
filesystem) or exits non-zero.  The embedding `runMain` mirrors `main`
line by line, threading the filesystem and the trace of invoked argument
vectors, and halting exactly where the script prints an error and returns 1
(`Halt.err`), where an uncaught exception propagates (`Halt.raised`), or
where `subprocess.run(check=True)` raises on a non-zero exit
(`Halt.toolFailed`).
-/

/-- A filesystem path, as the list of its name components from the root. -/
abbrev FPath := List String

/-- Render a path the way `str(path)` renders a resolved absolute path. -/
def pathStr (p : FPath) : String :=
  "/" ++ String.intercalate "/" p

/-- The final name component of a path (`FPath.name` in pathlib);
the root has name `""`. -/
def pname (p : FPath) : String :=
  p.getLastD ""

/-- Index of the last occurrence of a dot in a character list
(`str.rfind` in Python, as an `Option`). -/
def lastDotIdx (cs : List Char) : Option Nat :=
  ((List.range cs.length).filter (fun i => cs.getD i ' ' == '.')).getLast?

/-- Python `pathlib`'s `stem`: strip the final extension, where an extension
is a dot at an index `i` with `0 < i < len(name) - 1` (so hidden files and
trailing dots keep their name). -/
def pyStem (s : String) : String :=
  let cs := s.toList
  match lastDotIdx cs with
  | none => s
  | some i => if 0 < i ∧ i < cs.length - 1 then String.mk (cs.take i) else s

/-- Python `path / s`: pathlib drops empty name segments, so joining with
`""` returns the path unchanged. -/
def pjoin (p : FPath) (s : String) : FPath :=
  if s = "" then p else p ++ [s]

/-- `leadsTo p q` holds when `p` is a (not necessarily proper) ancestor-or-self
prefix of `q`. -/
def leadsTo : FPath → FPath → Bool
  | [], _ => true
  | _ :: _, [] => false
  | a :: p, b :: q => a == b && leadsTo p q

/-- Proper-descendant test: `q` lies strictly below `p`. -/
def properUnder (p q : FPath) : Bool :=
  leadsTo p q && decide (p.length < q.length)

/-- All ancestor prefixes of a path, the path itself included. -/
def prefixes : FPath → List FPath
  | [] => [[]]
  | a :: rest => [] :: (prefixes rest).map (fun q => a :: q)

/-- Filesystem state: the set of existing file paths and the set of existing
directory paths, as lists. -/
structure FS where
  files : List FPath
  dirs : List FPath
  deriving DecidableEq

/-- Existence as a regular file (`FPath.is_file`). -/
def FS.isFile (fs : FS) (p : FPath) : Bool :=
  p ∈ fs.files

/-- Existence as a directory (`FPath.is_dir`). -/
def FS.isDir (fs : FS) (p : FPath) : Bool :=
  p ∈ fs.dirs

/-- Existence as either kind (`FPath.exists`). -/
def FS.existsP (fs : FS) (p : FPath) : Bool :=
  fs.isFile p || fs.isDir p

/-- The `_ensure_dir` helper: `mkdir(parents=True, exist_ok=True)`.  A no-op
when the directory already exists; otherwise all missing ancestors are
created as directories. -/
def FS.mkdirP (fs : FS) (p : FPath) : FS :=
  if fs.isDir p then fs
  else ⟨fs.files, fs.dirs ++ (prefixes p).filter (fun q => !(fs.isDir q))⟩

/-- `shutil.rmtree`: remove the directory and everything below it. -/
def FS.rmtree (fs : FS) (p : FPath) : FS :=
  ⟨fs.files.filter (fun q => !(leadsTo p q)),
   fs.dirs.filter (fun q => !(leadsTo p q))⟩

/-- `pre` is a prefix of `l`, on character lists. -/
def charsPre : List Char → List Char → Bool
  | [], _ => true
  | _ :: _, [] => false
  | a :: pre, b :: l => a == b && charsPre pre l

/-- The string starts with the given prefix (`str.startswith`). -/
def strStarts (s pre : String) : Bool :=
  charsPre pre.toList s.toList

/-- The string ends with the given suffix (`str.endswith`, and the tail of
an fnmatch pattern `*sfx`). -/
def strEnds (s sfx : String) : Bool :=
  charsPre sfx.toList.reverse s.toList.reverse

/-- Lexicographic comparison of character lists by code point, the order
Python uses to compare strings. -/
def charsLe : List Char → List Char → Bool
  | [], _ => true
  | _ :: _, [] => false
  | a :: as, b :: bs =>
    if a == b then charsLe as bs else decide (a.toNat < b.toNat)

/-- Lexicographic comparison of names by code point. -/
def strLe (a b : String) : Bool :=
  charsLe a.toList b.toList

/-- Insert a name into a sorted list of names, keeping it sorted. -/
def insertSorted (s : String) : List String → List String
  | [] => [s]
  | t :: r => if strLe s t then s :: t :: r else t :: insertSorted s r

/-- Sort a list of names in ascending order (models Python `sorted`). -/
def sortNames (l : List String) : List String :=
  l.foldr insertSorted []

/-- The names of the entries of a directory, each once, in sorted order
(models `sorted(dir.iterdir())`). -/
def FS.childNames (fs : FS) (d : FPath) : List String :=
  sortNames (((fs.files ++ fs.dirs).filterMap
    (fun p => if p.dropLast == d then p.getLast? else none)).dedup)

/-- An external command line: the argument vector passed to `subprocess.run`. -/
abbrev Cmd := List String

/-- How a run terminates early.  `err` is a stderr diagnostic followed by
`return 1`; `raised` is an uncaught exception (`FileNotFoundError` from the
atlas helpers); `toolFailed` is `subprocess.CalledProcessError` from a
non-zero external exit under `check=True`. -/
inductive Halt where
  | err (msg : String)
  | raised (msg : String)
  | toolFailed (cmd : Cmd)
  deriving DecidableEq

/-- Orchestrator state threaded through the run: the filesystem and the
trace of invoked external command lines, in order. -/
structure St where
  fs : FS
  cmds : List Cmd
  deriving DecidableEq

/-- Behaviour of the external tools: given a command and the filesystem it
runs against, either `none` (the tool exited non-zero) or the filesystem it
leaves behind. -/
abbrev Eff := Cmd → FS → Option FS

/-- The effect of a stubbed external world: every command exits 0 and
touches nothing. -/
def stubEff : Eff := fun _ fs => some fs

/-- The `_run` helper (`subprocess.run(cmd, check=True)`): record the command
in the trace, then either advance the filesystem or halt with
`Halt.toolFailed`. -/
def runCmdE (E : Eff) (cmd : Cmd) (st : St) : Except (Halt × St) St :=
  match E cmd st.fs with
  | none => .error (.toolFailed cmd, ⟨st.fs, st.cmds ++ [cmd]⟩)
  | some fs' => .ok ⟨fs', st.cmds ++ [cmd]⟩

/-- Prefix an argument vector with the virtual-framebuffer launcher when the
flag is set. -/
def wrapX (useXvfb : Bool) (cmd : Cmd) : Cmd :=
  if useXvfb then ["xvfb-run", "-a"] ++ cmd else cmd

/-- The `_run_with_xvfb` helper: prefix the virtual-framebuffer launcher
when the virtual-display flag is set, then run. -/
def runWithXvfb (E : Eff) (cmd : Cmd) (useXvfb : Bool) (st : St) :
    Except (Halt × St) St :=
  runCmdE E (wrapX useXvfb cmd) st

/-- Accepted registration-bundle directory names, in resolution order. -/
def regCandidates : List String :=
  ["ORG-RegAtlas-100HCP", "NABA-RegAtlas", "ORG-RegAtlas"]

/-- Accepted clustering-bundle directory names, in resolution order. -/
def fcCandidates : List String :=
  ["ORG-800FC-100HCP", "NABA-800FC", "ORG-800FC"]

/-- First candidate name that exists as a subdirectory of `root`
(the `for name in candidates` loops of `_find_atlas_dirs`). -/
def findFirstDir (fs : FS) (root : FPath) : List String → Option FPath
  | [] => none
  | n :: rest =>
    if fs.isDir (root ++ [n]) then some (root ++ [n])
    else findFirstDir fs root rest

/-- The `_find_atlas_dirs` helper: resolve the atlas root into the
registration and clustering bundle directories, checking the required
reference artifacts. -/
def findAtlasDirs (fs : FS) (atlasRoot : FPath) : Except String (FPath × FPath) :=
  if !(fs.isDir atlasRoot) then
    .error ("Atlas root not found: " ++ pathStr atlasRoot)
  else
    match findFirstDir fs atlasRoot regCandidates,
        findFirstDir fs atlasRoot fcCandidates with
    | some regDir, some fcDir =>
      if !(fs.isFile (regDir ++ ["registration_atlas.vtk"])) then
        .error ("registration_atlas.vtk not found in " ++ pathStr regDir)
      else if !(fs.isFile (fcDir ++ ["atlas.p"]) &&
          fs.isFile (fcDir ++ ["atlas.vtp"])) then
        .error ("atlas.p/atlas.vtp not found in " ++ pathStr fcDir)
      else .ok (regDir, fcDir)
    | _, _ =>
      .error "Atlas root must contain registration and clustering folders."

/-- The `_pick_cluster_location_file` helper: prefer the hemisphere-location
file bundled with the clustering atlas, fall back to the orchestrator's
bundled default, and fail if neither exists. -/
def pickClusterLocationFile (fs : FS) (fcDir scriptDir : FPath) :
    Except String FPath :=
  let fromAtlas := fcDir ++ ["cluster_hemisphere_location.txt"]
  if fs.isFile fromAtlas then .ok fromAtlas
  else
    let fallback := scriptDir ++ ["resources", "cluster_hemisphere_location.txt"]
    if !(fs.isFile fallback) then
      .error "cluster_hemisphere_location.txt not found in atlas or resources."
    else .ok fallback

/-- Registration mode: the `-r {rig, nonrig}` flag. -/
inductive RegMode where
  | rig
  | nonrig
  deriving DecidableEq

/-- The immutable configuration record parsed from the command line.
`i`, `o`, `a`, `s` are the required input / output root / atlas root /
Slicer paths (already resolved); `t` the optional size-matching transform;
`r` the registration mode; `n` the thread count; `x` the virtual-display
flag; `d` the measurement-export flag; `m` the measurement module path;
`c` the cleanup tier.  `scriptDir` models `Path(__file__).parent` and
`pyExe` models `sys.executable`. -/
structure Config where
  i : FPath
  o : FPath
  a : FPath
  s : FPath
  t : Option FPath
  r : RegMode
  n : Int
  x : Bool
  d : Bool
  m : Option FPath
  c : Nat
  scriptDir : FPath
  pyExe : String
  deriving DecidableEq

/-- Thread count after the `args.n < 1` clamp. -/
def Config.nClamped (cfg : Config) : Int :=
  if cfg.n < 1 then 1 else cfg.n

/-- The per-case directory layout derived in `main` from the output root and
the subject id. -/
structure Layout where
  outputCase : FPath
  transformedTractsDir : FPath
  registrationDir : FPath
  clusteringRoot : FPath
  initialClustersDir : FPath
  outlierClustersDir : FPath
  transformedClustersDir : FPath
  separatedClustersDir : FPath
  inverseTransformedDir : FPath
  anatomicalTractsDir : FPath
  deriving DecidableEq

/-- Build the layout exactly as `main` does (lines 204-215 of the script). -/
def mkLayout (outputRoot : FPath) (subjectId : String) : Layout :=
  let outputCase := pjoin outputRoot subjectId
  let clusteringRoot := outputCase ++ ["FiberClustering"]
  { outputCase := outputCase
    transformedTractsDir := outputCase ++ ["TransformedTracts"]
    registrationDir := outputCase ++ ["TractRegistration"]
    clusteringRoot := clusteringRoot
    initialClustersDir := clusteringRoot ++ ["InitialClusters"]
    outlierClustersDir := clusteringRoot ++ ["OutlierRemovedClusters"]
    transformedClustersDir := pjoin (clusteringRoot ++ ["TransformedClusters"]) subjectId
    separatedClustersDir := clusteringRoot ++ ["SeparatedClusters"]
    inverseTransformedDir := outputCase ++ ["InvTransformedTracts"]
    anatomicalTractsDir := outputCase ++ ["AnatomicalTracts"] }

/-- Values fixed after startup: configuration, resolved atlas directories,
hemisphere-location file, subject id and layout. -/
structure Ctx where
  cfg : Config
  regDir : FPath
  fcDir : FPath
  clusterLocationFile : FPath
  subjectId : String
  L : Layout
  deriving DecidableEq

/-- `reg_subject_dir = registration_dir / subject_id`. -/
def Ctx.regSubjectDir (ctx : Ctx) : FPath :=
  pjoin ctx.L.registrationDir ctx.subjectId

/-- `nonrig_subject = registration_dir / f"{subject_id}_reg"`. -/
def Ctx.nonrigSubject (ctx : Ctx) : FPath :=
  ctx.L.registrationDir ++ [ctx.subjectId ++ "_reg"]

/-- `outlier_dir = outlier_clusters_dir / f"{fc_case_id}_outlier_removed"`. -/
def Ctx.outlierDirFor (ctx : Ctx) (fcCaseId : String) : FPath :=
  ctx.L.outlierClustersDir ++ [fcCaseId ++ "_outlier_removed"]

/-- Initial harden-transform stage (script lines 219-238): when a
size-matching transform is configured, run `wm_harden_transform.py` against
the *parent directory* of the input file, then require the transformed copy
of the named input to exist.  Returns the active input for registration.
Note there is no skip-if-output-exists check before the invocation. -/
def transformInputStage (E : Eff) (ctx : Ctx) (st : St) :
    Except (Halt × St) (St × FPath) :=
  match ctx.cfg.t with
  | none => .ok (st, ctx.cfg.i)
  | some tPath =>
    if !(st.fs.isFile tPath) then
      .error (.err ("Transform file not found: " ++ pathStr tPath), st)
    else
      let st : St := ⟨st.fs.mkdirP ctx.L.transformedTractsDir, st.cmds⟩
      let cmd := ["wm_harden_transform.py", "-t", pathStr tPath,
        pathStr ctx.cfg.i.dropLast, pathStr ctx.L.transformedTractsDir,
        pathStr ctx.cfg.s]
      do
        let st ← runWithXvfb E cmd ctx.cfg.x st
        let transformed := ctx.L.transformedTractsDir ++ [pname ctx.cfg.i]
        if !(st.fs.isFile transformed) then
          .error (.err "ERROR: Transformed input not found.", st)
        else .ok (st, transformed)

/-- Registration stage (script lines 240-283): one `wm_register_to_atlas_new`
invocation in rigid mode, two chained ones (affine, then non-rigid over the
affine output) in non-rigid mode, each skipped when its output exists;
afterwards the final registration output is re-checked.  Returns the
registration output path. -/
def registrationStage (E : Eff) (ctx : Ctx) (activeInput : FPath) (st : St) :
    Except (Halt × St) (St × FPath) :=
  let st : St := ⟨st.fs.mkdirP ctx.L.registrationDir, st.cmds⟩
  let regSubjectDir := ctx.regSubjectDir
  let regOutput := regSubjectDir ++ ["output_tractography",
    ctx.subjectId ++ "_reg.vtk"]
  do
    let (st, regOutput) ←
      match ctx.cfg.r with
      | .rig => do
        let st ←
          if st.fs.isFile regOutput then pure st
          else runCmdE E ["wm_register_to_atlas_new.py", "-mode",
            "rigid_affine_fast", pathStr activeInput,
            pathStr (ctx.regDir ++ ["registration_atlas.vtk"]),
            pathStr ctx.L.registrationDir] st
        pure (st, regOutput)
      | .nonrig => do
        let st ←
          if st.fs.isFile regOutput then pure st
          else runCmdE E ["wm_register_to_atlas_new.py", "-mode", "affine",
            pathStr activeInput,
            pathStr (ctx.regDir ++ ["registration_atlas.vtk"]),
            pathStr ctx.L.registrationDir] st
        let regOutput2 := ctx.nonrigSubject ++ ["output_tractography",
          ctx.subjectId ++ "_reg_reg.vtk"]
        let st ←
          if st.fs.isFile regOutput2 then pure st
          else
            runCmdE E ["wm_register_to_atlas_new.py", "-mode", "nonrigid",
              pathStr (regSubjectDir ++ ["output_tractography",
                ctx.subjectId ++ "_reg.vtk"]),
              pathStr (ctx.regDir ++ ["registration_atlas.vtk"]),
              pathStr ctx.L.registrationDir] st
        pure (st, regOutput2)
    if !(st.fs.isFile regOutput) then
      .error (.err "ERROR: Registration output not found.", st)
    else .ok (st, regOutput)

/-- Clustering stage (script lines 285-298): `wm_cluster_from_atlas`,
skipped when the terminal cluster artifact exists; no re-check afterwards. -/
def clusteringStage (E : Eff) (ctx : Ctx) (regOutput : FPath) (st : St) :
    Except (Halt × St) St :=
  let st : St := ⟨st.fs.mkdirP ctx.L.initialClustersDir, st.cmds⟩
  let fcCaseId := pyStem (pname regOutput)
  let clusterOutput := pjoin ctx.L.initialClustersDir fcCaseId ++
    ["cluster_00800.vtp"]
  if st.fs.isFile clusterOutput then .ok st
  else
    runCmdE E ["wm_cluster_from_atlas.py", "-j", toString ctx.cfg.nClamped,
      pathStr regOutput, pathStr ctx.fcDir,
      pathStr ctx.L.initialClustersDir, "-norender"] st

/-- Outlier-removal stage (script lines 300-312): skipped when the outlier
removed cluster artifact exists; no re-check afterwards. -/
def outlierStage (E : Eff) (ctx : Ctx) (fcCaseId : String) (st : St) :
    Except (Halt × St) St :=
  let st : St := ⟨st.fs.mkdirP ctx.L.outlierClustersDir, st.cmds⟩
  let outlierOutput := ctx.outlierDirFor fcCaseId ++ ["cluster_00800.vtp"]
  if st.fs.isFile outlierOutput then .ok st
  else
    runCmdE E ["wm_cluster_remove_outliers.py", "-j",
      toString ctx.cfg.nClamped, pathStr (pjoin ctx.L.initialClustersDir fcCaseId),
      pathStr ctx.fcDir, pathStr ctx.L.outlierClustersDir] st

/-- Hemisphere-assessment stage (script lines 314-322): skipped when the
assessment log exists; no re-check afterwards. -/
def assessStage (E : Eff) (ctx : Ctx) (fcCaseId : String) (st : St) :
    Except (Halt × St) St :=
  let assessLog := ctx.outlierDirFor fcCaseId ++
    ["cluster_location_by_hemisphere.log"]
  if st.fs.isFile assessLog then .ok st
  else
    runCmdE E ["wm_assess_cluster_location_by_hemisphere.py",
      "-clusterLocationFile", pathStr ctx.clusterLocationFile,
      pathStr (ctx.outlierDirFor fcCaseId)] st

/-- Re-check of the transformed-clusters artifact (script lines 391-394). -/
def transformedRecheck (transformedDir : FPath) (st : St) :
    Except (Halt × St) St :=
  if !(st.fs.isFile (transformedDir ++ ["cluster_00800.vtp"])) then
    .error (.err "ERROR: Transformed clusters not found.", st)
  else .ok st

/-- Un-transform stage (script lines 324-394): harden the inverse
registration transform(s) into the outlier-removed clusters.  Rigid mode
applies the single inverse transform; non-rigid mode applies the inverse
non-rigid transform into the `tmp` staging directory first and then the
inverse affine transform from the staging directory into the final
transformed-clusters directory.  The final artifact is re-checked. -/
def transformClustersStage (E : Eff) (ctx : Ctx) (fcCaseId : String)
    (st : St) : Except (Halt × St) St :=
  let st : St := ⟨st.fs.mkdirP ctx.L.transformedClustersDir, st.cmds⟩
  let transformedDir := ctx.L.transformedClustersDir
  let outlierDir := ctx.outlierDirFor fcCaseId
  match ctx.cfg.r with
  | .rig =>
    let tfm := ctx.regSubjectDir ++ ["output_tractography",
      "itk_txform_" ++ ctx.subjectId ++ ".tfm"]
    if !(st.fs.isFile tfm) then
      .error (.err ("ERROR: Registration transform not found: " ++
        pathStr tfm), st)
    else do
      let cmd := ["wm_harden_transform.py", "-i", "-t", pathStr tfm,
        pathStr outlierDir, pathStr transformedDir, pathStr ctx.cfg.s]
      let st ←
        if st.fs.isFile (transformedDir ++ ["cluster_00800.vtp"]) then pure st
        else runWithXvfb E cmd ctx.cfg.x st
      transformedRecheck transformedDir st
  | .nonrig =>
    let tfmNonrig := ctx.nonrigSubject ++ ["output_tractography",
      "itk_txform_" ++ ctx.subjectId ++ "_reg.tfm"]
    let tfmAffine := ctx.regSubjectDir ++ ["output_tractography",
      "itk_txform_" ++ ctx.subjectId ++ ".tfm"]
    if !(st.fs.isFile tfmNonrig) then
      .error (.err ("ERROR: Nonrigid transform not found: " ++
        pathStr tfmNonrig), st)
    else if !(st.fs.isFile tfmAffine) then
      .error (.err ("ERROR: Affine transform not found: " ++
        pathStr tfmAffine), st)
    else
      let tempDir := transformedDir ++ ["tmp"]
      let st : St := ⟨st.fs.mkdirP tempDir, st.cmds⟩
      let cmdNonrig := ["wm_harden_transform.py", "-i", "-t",
        pathStr tfmNonrig, pathStr outlierDir, pathStr tempDir,
        pathStr ctx.cfg.s]
      let cmdAffine := ["wm_harden_transform.py", "-i", "-t",
        pathStr tfmAffine, pathStr tempDir, pathStr transformedDir,
        pathStr ctx.cfg.s]
      do
        let st ←
          if st.fs.isFile (tempDir ++ ["cluster_00800.vtp"]) then pure st
          else runWithXvfb E cmdNonrig ctx.cfg.x st
        let st ←
          if st.fs.isFile (transformedDir ++ ["cluster_00800.vtp"]) then pure st
          else runWithXvfb E cmdAffine ctx.cfg.x st
        transformedRecheck transformedDir st

/-- Hemisphere-separation stage (script lines 396-404): skipped when the
commissural separated artifact exists; no re-check afterwards. -/
def separationStage (E : Eff) (ctx : Ctx) (st : St) :
    Except (Halt × St) St :=
  let st : St := ⟨st.fs.mkdirP ctx.L.separatedClustersDir, st.cmds⟩
  if st.fs.isFile (ctx.L.separatedClustersDir ++
      ["tracts_commissural", "cluster_00800.vtp"]) then .ok st
  else
    runCmdE E ["wm_separate_clusters_by_hemisphere.py",
      pathStr ctx.L.transformedClustersDir,
      pathStr ctx.L.separatedClustersDir] st

/-- Body of the per-hemisphere-folder inverse-transform loop (script lines
412-429): iterate the sorted entries of the separated-clusters directory,
skip non-directories and folders whose terminal artifact already exists,
and otherwise apply the inverse harden-transform. -/
def invLoop (E : Eff) (ctx : Ctx) (tfmFile : FPath) :
    List String → St → Except (Halt × St) St
  | [], st => .ok st
  | nm :: rest, st =>
    if !(st.fs.isDir (ctx.L.separatedClustersDir ++ [nm])) then
      invLoop E ctx tfmFile rest st
    else
      let outDir := ctx.L.inverseTransformedDir ++ [nm]
      let st : St := ⟨st.fs.mkdirP outDir, st.cmds⟩
      if st.fs.isFile (outDir ++ ["cluster_00800.vtp"]) then
        invLoop E ctx tfmFile rest st
      else
        match runWithXvfb E ["wm_harden_transform.py", "-i", "-t",
            pathStr tfmFile, pathStr (ctx.L.separatedClustersDir ++ [nm]),
            pathStr outDir, pathStr ctx.cfg.s] ctx.cfg.x st with
        | .error e => .error e
        | .ok st => invLoop E ctx tfmFile rest st

/-- Inverse size-matching transform stage (script lines 406-429): only when
a transform is configured; fans out over the hemisphere-separated output
folders. -/
def inverseTransformStage (E : Eff) (ctx : Ctx) (st : St) :
    Except (Halt × St) St :=
  match ctx.cfg.t with
  | none => .ok st
  | some tPath =>
    if !(st.fs.isFile tPath) then
      .error (.err ("Transform file not found: " ++ pathStr tPath), st)
    else
      let st : St := ⟨st.fs.mkdirP ctx.L.inverseTransformedDir, st.cmds⟩
      invLoop E ctx tPath (st.fs.childNames ctx.L.separatedClustersDir) st

/-- Anatomical-tract aggregation stage (script lines 433-443): skipped when
the terminal aggregate artifact exists; no re-check afterwards. -/
def aggregationStage (E : Eff) (ctx : Ctx) (finalClustersDir : FPath)
    (st : St) : Except (Halt × St) St :=
  let st : St := ⟨st.fs.mkdirP ctx.L.anatomicalTractsDir, st.cmds⟩
  if st.fs.isFile (ctx.L.anatomicalTractsDir ++ ["T_UF_right.vtp"]) then .ok st
  else
    runCmdE E [ctx.cfg.pyExe,
      pathStr (ctx.cfg.scriptDir ++
        ["wm_append_clusters_to_anatomical_tracts_naba.py"]),
      pathStr finalClustersDir, pathStr ctx.fcDir,
      pathStr ctx.L.anatomicalTractsDir] st

/-- One per-region measurement invocation (script lines 455-464). -/
def measureOne (E : Eff) (ctx : Ctx) (region : String) (inputDir : FPath)
    (slicerCmd : String) (st : St) : Except (Halt × St) St :=
  let outCsv := ctx.L.separatedClustersDir ++
    ["diffusion_measurements_" ++ region ++ ".csv"]
  if st.fs.isFile outCsv then .ok st
  else
    runCmdE E ["wm_diffusion_measurements.py", pathStr inputDir,
      pathStr outCsv, slicerCmd] st

/-- Measurement-export stage (script lines 445-474): three per-region
measurement invocations plus one aggregate invocation, each skipped when
its CSV exists.  The Slicer launch string (not the argument vector) gets
the virtual-framebuffer prefix when the virtual-display flag is set. -/
def measurementStage (E : Eff) (ctx : Ctx) (finalClustersDir : FPath)
    (st : St) : Except (Halt × St) St :=
  if !ctx.cfg.d then .ok st
  else
    let slicerCmd0 := pathStr ctx.cfg.s ++ " --launch " ++
      pathStr (ctx.cfg.m.getD [])
    let slicerCmd := if ctx.cfg.x then "xvfb-run -a " ++ slicerCmd0
      else slicerCmd0
    do
      let st ← measureOne E ctx "commissural"
        (finalClustersDir ++ ["tracts_commissural"]) slicerCmd st
      let st ← measureOne E ctx "left"
        (finalClustersDir ++ ["tracts_left_hemisphere"]) slicerCmd st
      let st ← measureOne E ctx "right"
        (finalClustersDir ++ ["tracts_right_hemisphere"]) slicerCmd st
      let tractsCsv := ctx.L.anatomicalTractsDir ++
        ["diffusion_measurements_anatomical_tracts.csv"]
      if st.fs.isFile tractsCsv then .ok st
      else
        runCmdE E ["wm_diffusion_measurements.py",
          pathStr ctx.L.anatomicalTractsDir, pathStr tractsCsv, slicerCmd] st

/-- Match for the tier-2 glob `*/*/output_tractography/*.vtk` under the
registration directory: these are the bulky per-subject geometry outputs
that tier-2 cleanup unlinks. -/
def regVtkMatch (registrationDir : FPath) (q : FPath) : Bool :=
  leadsTo registrationDir q &&
  decide (q.length = registrationDir.length + 4) &&
  ((q.drop registrationDir.length).getD 2 "" == "output_tractography") &&
  strEnds ((q.drop registrationDir.length).getD 3 "") ".vtk"

/-- Match for anything rooted at a tier-2 glob `*/*/iteration*` hit under
the registration directory: the per-iteration diagnostic subdirectories
that tier-2 cleanup removes recursively. -/
def iterMatch (registrationDir : FPath) (q : FPath) : Bool :=
  leadsTo registrationDir q &&
  decide (registrationDir.length + 3 ≤ q.length) &&
  strStarts ((q.drop registrationDir.length).getD 2 "") "iteration"

/-- Guarded subtree removal: `if target.exists(): shutil.rmtree(target)`. -/
def rmtreeIfExists (target : FPath) (fs : FS) : FS :=
  if fs.existsP target then fs.rmtree target else fs

/-- Tier-2 registration cleanup (script lines 484-488): unlink the geometry
outputs matching the `*.vtk` glob and remove the subtrees rooted at the
per-iteration glob matches, guarded on the registration directory
existing. -/
def regCleanPass (registrationDir : FPath) (fs : FS) : FS :=
  if fs.existsP registrationDir then
    ⟨(fs.files.filter (fun q => !(regVtkMatch registrationDir q))).filter
        (fun q => !(iterMatch registrationDir q)),
      fs.dirs.filter (fun q => !(iterMatch registrationDir q))⟩
  else fs

/-- Tier-2 outlier cleanup (script lines 491-496): iterate the entries of
the outlier-removed clusters directory, removing directories recursively
and unlinking files, i.e. remove everything strictly below it. -/
def outlierClearPass (outlierClustersDir : FPath) (fs : FS) : FS :=
  if fs.existsP outlierClustersDir then
    ⟨fs.files.filter (fun q => !(properUnder outlierClustersDir q)),
      fs.dirs.filter (fun q => !(properUnder outlierClustersDir q))⟩
  else fs

/-- Tier-2 transformed-clusters pruning (script lines 497-502): unlink every
non-directory below the transformed-clusters root, keeping directories. -/
def transformedLeavesPass (transformedRoot : FPath) (fs : FS) : FS :=
  if fs.existsP transformedRoot then
    ⟨fs.files.filter (fun q => !(properUnder transformedRoot q)), fs.dirs⟩
  else fs

/-- Tier-1 cleanup pass (script lines 476-481, run when `args.c >= 1`):
remove the initial-clusters tree and the transformed-clusters staging
tree. -/
def cleanupMinimal (L : Layout) (fs : FS) : FS :=
  rmtreeIfExists (L.clusteringRoot ++ ["TransformedClusters"])
    (rmtreeIfExists L.initialClustersDir fs)

/-- Tier-2 cleanup pass (script lines 483-502, run when `args.c >= 2`):
the registration cleanup, the initial-clusters removal again, the
outlier-directory clearing, and the transformed-clusters leaf pruning, in
the script's order. -/
def cleanupMaximal (L : Layout) (fs : FS) : FS :=
  transformedLeavesPass (L.clusteringRoot ++ ["TransformedClusters"])
    (outlierClearPass L.outlierClustersDir
      (rmtreeIfExists L.initialClustersDir
        (regCleanPass L.registrationDir fs)))

/-- The whole cleanup phase for a given tier: the tier-1 pass when
`c >= 1`, followed by the tier-2 pass when `c >= 2` (script lines
476-502). -/
def applyCleanup (L : Layout) (c : Nat) (fs : FS) : FS :=
  let fs := if 1 ≤ c then cleanupMinimal L fs else fs
  if 2 ≤ c then cleanupMaximal L fs else fs

/-- The stage sequence from registration to the end of `main` (script
lines 240-504), after the active input has been determined: registration,
clustering, outlier removal, hemisphere assessment, atlas-space transform,
separation, optional inverse transform, aggregation, optional measurement
export, and the cleanup phase. -/
def pipelineRest (E : Eff) (ctx : Ctx) (st : St) (activeInput : FPath) :
    Except (Halt × St) St := do
  let (st, regOutput) ← registrationStage E ctx activeInput st
  let fcCaseId := pyStem (pname regOutput)
  let st ← clusteringStage E ctx regOutput st
  let st ← outlierStage E ctx fcCaseId st
  let st ← assessStage E ctx fcCaseId st
  let st ← transformClustersStage E ctx fcCaseId st
  let st ← separationStage E ctx st
  let st ← inverseTransformStage E ctx st
  let finalClustersDir := if ctx.cfg.t.isSome then
    ctx.L.inverseTransformedDir else ctx.L.separatedClustersDir
  let st ← aggregationStage E ctx finalClustersDir st
  let st ← measurementStage E ctx finalClustersDir st
  .ok ⟨applyCleanup ctx.L ctx.cfg.c st.fs, st.cmds⟩

/-- The whole of `main` (script lines 102-504): startup validation, atlas
resolution, layout derivation, the stage sequence, and the cleanup phase.
Produces the final state on success (`return 0`) and the halt with the
state reached on failure. -/
def runMain (E : Eff) (cfg : Config) (fs0 : FS) : Except (Halt × St) St :=
  let st0 : St := ⟨fs0, []⟩
  if !(fs0.isFile cfg.i) then
    .error (.err ("Input file not found: " ++ pathStr cfg.i), st0)
  else if !(fs0.existsP cfg.s) then
    .error (.err ("3D Slicer not found: " ++ pathStr cfg.s), st0)
  else if cfg.d && cfg.m.isNone then
    .error (.err "ERROR: -d requires -m FiberTractMeasurements module path.",
      st0)
  else
    match findAtlasDirs fs0 cfg.a with
    | .error msg => .error (.raised msg, st0)
    | .ok (regDir, fcDir) =>
      match pickClusterLocationFile fs0 fcDir cfg.scriptDir with
      | .error msg => .error (.raised msg, st0)
      | .ok clusterLocationFile =>
        let fs1 := fs0.mkdirP cfg.o
        let subjectId := pyStem (pname cfg.i)
        let L := mkLayout cfg.o subjectId
        let fs2 := fs1.mkdirP L.outputCase
        let ctx : Ctx := ⟨cfg, regDir, fcDir, clusterLocationFile,
          subjectId, L⟩
        do
          let (st, activeInput) ← transformInputStage E ctx ⟨fs2, []⟩
          pipelineRest E ctx st activeInput

/-- The state reached by a run, whether it halted early or completed. -/
def outSt : Except (Halt × St) St → St
  | .ok st => st
  | .error e => e.2

/-- The state reached by a stage that also returns a path. -/
def outStP : Except (Halt × St) (St × FPath) → St
  | .ok (st, _) => st
  | .error e => e.2

/-- Whether an `Except` value is a success. -/
def isOkE : Except ε α → Bool
  | .ok _ => true
  | .error _ => false

/-- Decidable equality for run outcomes, so that concrete runs can be
settled by `decide`. -/
instance exceptDecEq {ε α : Type} [DecidableEq ε] [DecidableEq α] :
    DecidableEq (Except ε α) := fun a b =>
  match a, b with
  | .ok x, .ok y =>
    if h : x = y then .isTrue (by rw [h]) else .isFalse (by simp [h])
  | .error x, .error y =>
    if h : x = y then .isTrue (by rw [h]) else .isFalse (by simp [h])
  | .ok _, .error _ => .isFalse (by simp)
  | .error _, .ok _ => .isFalse (by simp)

/-- The subject id `main` derives: the stem of the input file's name. -/
def subjIdOf (cfg : Config) : String :=
  pyStem (pname cfg.i)

/-- The layout `main` derives for a configuration. -/
def layoutOf (cfg : Config) : Layout :=
  mkLayout cfg.o (subjIdOf cfg)

/-- `reg_subject_dir` for a configuration. -/
def regSubjectDirOf (cfg : Config) : FPath :=
  pjoin (layoutOf cfg).registrationDir (subjIdOf cfg)

/-- `nonrig_subject` for a configuration. -/
def nonrigSubjectOf (cfg : Config) : FPath :=
  (layoutOf cfg).registrationDir ++ [subjIdOf cfg ++ "_reg"]

/-- The affine (or rigid) registration output path. -/
def affineOutputOf (cfg : Config) : FPath :=
  regSubjectDirOf cfg ++ ["output_tractography", subjIdOf cfg ++ "_reg.vtk"]

/-- The non-rigid registration output path. -/
def nonrigOutputOf (cfg : Config) : FPath :=
  nonrigSubjectOf cfg ++ ["output_tractography", subjIdOf cfg ++ "_reg_reg.vtk"]

/-- The registration output consumed downstream, per mode. -/
def regOutputOf (cfg : Config) : FPath :=
  match cfg.r with
  | .rig => affineOutputOf cfg
  | .nonrig => nonrigOutputOf cfg

/-- `fc_case_id`: the stem of the registration output's name. -/
def fcCaseIdOf (cfg : Config) : String :=
  pyStem (pname (regOutputOf cfg))

/-- The outlier-removal working directory for a configuration. -/
def outlierDirOf (cfg : Config) : FPath :=
  (layoutOf cfg).outlierClustersDir ++ [fcCaseIdOf cfg ++ "_outlier_removed"]

/-- The rigid/affine registration transform file. -/
def tfmRigOf (cfg : Config) : FPath :=
  regSubjectDirOf cfg ++ ["output_tractography",
    "itk_txform_" ++ subjIdOf cfg ++ ".tfm"]

/-- The non-rigid registration transform file. -/
def tfmNonrigOf (cfg : Config) : FPath :=
  nonrigSubjectOf cfg ++ ["output_tractography",
    "itk_txform_" ++ subjIdOf cfg ++ "_reg.tfm"]

/-- A filesystem state in which every artifact the orchestrator consults on
a resume run already exists, as a successful tier-0 first run whose tools
produced their declared outputs leaves behind.  Carries the resolved atlas
directories as data so the resume theorem can name them. -/
structure SecondRunReady (cfg : Config) (fs : FS) where
  rd : FPath
  fd : FPath
  clf : FPath
  input : fs.isFile cfg.i = true
  slicer : fs.existsP cfg.s = true
  dm : cfg.d = true → cfg.m.isNone = false
  atlasOk : findAtlasDirs fs cfg.a = .ok (rd, fd)
  locOk : pickClusterLocationFile fs fd cfg.scriptDir = .ok clf
  outRootDir : fs.isDir cfg.o = true
  caseDir : fs.isDir (layoutOf cfg).outputCase = true
  regDirD : fs.isDir (layoutOf cfg).registrationDir = true
  initDirD : fs.isDir (layoutOf cfg).initialClustersDir = true
  outlDirD : fs.isDir (layoutOf cfg).outlierClustersDir = true
  tcdDirD : fs.isDir (layoutOf cfg).transformedClustersDir = true
  sepDirD : fs.isDir (layoutOf cfg).separatedClustersDir = true
  anatDirD : fs.isDir (layoutOf cfg).anatomicalTractsDir = true
  affineOut : fs.isFile (affineOutputOf cfg) = true
  nonrigOut : cfg.r = .nonrig → fs.isFile (nonrigOutputOf cfg) = true
  clusterOut : fs.isFile (pjoin (layoutOf cfg).initialClustersDir
    (fcCaseIdOf cfg) ++ ["cluster_00800.vtp"]) = true
  outlierOut : fs.isFile (outlierDirOf cfg ++ ["cluster_00800.vtp"]) = true
  assessOut : fs.isFile (outlierDirOf cfg ++
    ["cluster_location_by_hemisphere.log"]) = true
  tfmRig : cfg.r = .rig → fs.isFile (tfmRigOf cfg) = true
  tfmNonrig : cfg.r = .nonrig → fs.isFile (tfmNonrigOf cfg) = true
  tfmAffine : cfg.r = .nonrig → fs.isFile (tfmRigOf cfg) = true
  tempDirD : cfg.r = .nonrig →
    fs.isDir ((layoutOf cfg).transformedClustersDir ++ ["tmp"]) = true
  tempOut : cfg.r = .nonrig →
    fs.isFile (((layoutOf cfg).transformedClustersDir ++ ["tmp"]) ++
      ["cluster_00800.vtp"]) = true
  transformedOut : fs.isFile ((layoutOf cfg).transformedClustersDir ++
    ["cluster_00800.vtp"]) = true
  separatedOut : fs.isFile ((layoutOf cfg).separatedClustersDir ++
    ["tracts_commissural", "cluster_00800.vtp"]) = true
  appendOut : fs.isFile ((layoutOf cfg).anatomicalTractsDir ++
    ["T_UF_right.vtp"]) = true
  csvCom : cfg.d = true → fs.isFile ((layoutOf cfg).separatedClustersDir ++
    ["diffusion_measurements_commissural.csv"]) = true
  csvLeft : cfg.d = true → fs.isFile ((layoutOf cfg).separatedClustersDir ++
    ["diffusion_measurements_left.csv"]) = true
  csvRight : cfg.d = true → fs.isFile ((layoutOf cfg).separatedClustersDir ++
    ["diffusion_measurements_right.csv"]) = true
  csvTracts : cfg.d = true → fs.isFile ((layoutOf cfg).anatomicalTractsDir ++
    ["diffusion_measurements_anatomical_tracts.csv"]) = true
  tFile : ∀ tp, cfg.t = some tp → fs.isFile tp = true
  ttdDirD : cfg.t.isSome = true →
    fs.isDir (layoutOf cfg).transformedTractsDir = true
  transformedInput : cfg.t.isSome = true →
    fs.isFile ((layoutOf cfg).transformedTractsDir ++ [pname cfg.i]) = true
  invDirD : cfg.t.isSome = true →
    fs.isDir (layoutOf cfg).inverseTransformedDir = true
  invOut : cfg.t.isSome = true →
    ∀ nm ∈ fs.childNames (layoutOf cfg).separatedClustersDir,
      fs.isDir ((layoutOf cfg).separatedClustersDir ++ [nm]) = true →
      fs.isDir ((layoutOf cfg).inverseTransformedDir ++ [nm]) = true ∧
      fs.isFile (((layoutOf cfg).inverseTransformedDir ++ [nm]) ++
        ["cluster_00800.vtp"]) = true

/-- Remove one file path from a filesystem state (fixture helper). -/
def FS.removeFile (fs : FS) (p : FPath) : FS :=
  ⟨fs.files.filter (fun q => q ≠ p), fs.dirs⟩

/-- A baseline configuration: rigid mode, no size-matching transform, no
measurement export, virtual display off, cleanup tier 0. -/
def cfgBase : Config :=
  { i := ["data", "subjectA.vtk"], o := ["out"], a := ["atlas"],
    s := ["apps", "Slicer"], t := none, r := .rig, n := 1, x := false,
    d := false, m := none, c := 0, scriptDir := ["app"], pyExe := "python3" }

/-- The filesystem state after a successful tier-0 first run of `cfgBase`:
input, Slicer and atlas present, and every stage's expected artifact on
disk. -/
def fsDone : FS :=
  { files := [
      ["data", "subjectA.vtk"],
      ["apps", "Slicer"],
      ["atlas", "ORG-RegAtlas-100HCP", "registration_atlas.vtk"],
      ["atlas", "ORG-800FC-100HCP", "atlas.p"],
      ["atlas", "ORG-800FC-100HCP", "atlas.vtp"],
      ["atlas", "ORG-800FC-100HCP", "cluster_hemisphere_location.txt"],
      ["out", "subjectA", "TractRegistration", "subjectA",
        "output_tractography", "subjectA_reg.vtk"],
      ["out", "subjectA", "TractRegistration", "subjectA",
        "output_tractography", "itk_txform_subjectA.tfm"],
      ["out", "subjectA", "FiberClustering", "InitialClusters",
        "subjectA_reg", "cluster_00800.vtp"],
      ["out", "subjectA", "FiberClustering", "OutlierRemovedClusters",
        "subjectA_reg_outlier_removed", "cluster_00800.vtp"],
      ["out", "subjectA", "FiberClustering", "OutlierRemovedClusters",
        "subjectA_reg_outlier_removed", "cluster_location_by_hemisphere.log"],
      ["out", "subjectA", "FiberClustering", "TransformedClusters",
        "subjectA", "cluster_00800.vtp"],
      ["out", "subjectA", "FiberClustering", "SeparatedClusters",
        "tracts_commissural", "cluster_00800.vtp"],
      ["out", "subjectA", "AnatomicalTracts", "T_UF_right.vtp"]],
    dirs := [
      ["atlas"],
      ["atlas", "ORG-RegAtlas-100HCP"],
      ["atlas", "ORG-800FC-100HCP"],
      ["out"],
      ["out", "subjectA"],
      ["out", "subjectA", "TractRegistration"],
      ["out", "subjectA", "FiberClustering"],
      ["out", "subjectA", "FiberClustering", "InitialClusters"],
      ["out", "subjectA", "FiberClustering", "OutlierRemovedClusters"],
      ["out", "subjectA", "FiberClustering", "TransformedClusters",
        "subjectA"],
      ["out", "subjectA", "FiberClustering", "SeparatedClusters"],
      ["out", "subjectA", "AnatomicalTracts"]] }

/-- The baseline configuration with a size-matching transform configured. -/
def cfgT : Config :=
  { cfgBase with t := some ["xf", "t0.tfm"] }

/-- The post-first-run filesystem state for `cfgT`: everything in `fsDone`
plus the transform file, the transformed copy of the input, and the
per-hemisphere inverse-transformed artifacts. -/
def fsDoneT : FS :=
  { files := fsDone.files ++ [
      ["xf", "t0.tfm"],
      ["out", "subjectA", "TransformedTracts", "subjectA.vtk"],
      ["out", "subjectA", "InvTransformedTracts", "tracts_commissural",
        "cluster_00800.vtp"]],
    dirs := fsDone.dirs ++ [
      ["out", "subjectA", "TransformedTracts"],
      ["out", "subjectA", "FiberClustering", "SeparatedClusters",
        "tracts_commissural"],
      ["out", "subjectA", "InvTransformedTracts"],
      ["out", "subjectA", "InvTransformedTracts", "tracts_commissural"]] }

/-- `fsDone` with the terminal aggregation artifact missing. -/
def fsNoAppend : FS :=
  fsDone.removeFile ["out", "subjectA", "AnatomicalTracts", "T_UF_right.vtp"]

/-- The baseline configuration with the virtual-display flag on. -/
def cfgX : Config :=
  { cfgBase with x := true }

/-- `fsDone` with the terminal clustering artifact missing. -/
def fsNoCluster : FS :=
  fsDone.removeFile ["out", "subjectA", "FiberClustering", "InitialClusters",
    "subjectA_reg", "cluster_00800.vtp"]

/-- A degenerate configuration whose input path is the filesystem root, the
one path whose derived name (and hence subject id) is empty. -/
def cfgRootIn : Config :=
  { cfgBase with i := [] }

/-- A complete-run filesystem state for `cfgRootIn`: the root itself listed
as a file, and every expected artifact laid out under the empty subject id
(so the case directory collapses onto the output root). -/
def fsRootIn : FS :=
  { files := [
      [],
      ["apps", "Slicer"],
      ["atlas", "ORG-RegAtlas-100HCP", "registration_atlas.vtk"],
      ["atlas", "ORG-800FC-100HCP", "atlas.p"],
      ["atlas", "ORG-800FC-100HCP", "atlas.vtp"],
      ["atlas", "ORG-800FC-100HCP", "cluster_hemisphere_location.txt"],
      ["out", "TractRegistration", "output_tractography", "_reg.vtk"],
      ["out", "TractRegistration", "output_tractography", "itk_txform_.tfm"],
      ["out", "FiberClustering", "InitialClusters", "_reg",
        "cluster_00800.vtp"],
      ["out", "FiberClustering", "OutlierRemovedClusters",
        "_reg_outlier_removed", "cluster_00800.vtp"],
      ["out", "FiberClustering", "OutlierRemovedClusters",
        "_reg_outlier_removed", "cluster_location_by_hemisphere.log"],
      ["out", "FiberClustering", "TransformedClusters", "cluster_00800.vtp"],
      ["out", "FiberClustering", "SeparatedClusters", "tracts_commissural",
        "cluster_00800.vtp"],
      ["out", "AnatomicalTracts", "T_UF_right.vtp"]],
    dirs := [
      ["atlas"],
      ["atlas", "ORG-RegAtlas-100HCP"],
      ["atlas", "ORG-800FC-100HCP"],
      ["out"],
      ["out", "TractRegistration"],
      ["out", "FiberClustering"],
      ["out", "FiberClustering", "InitialClusters"],
      ["out", "FiberClustering", "OutlierRemovedClusters"],
      ["out", "FiberClustering", "TransformedClusters"],
      ["out", "FiberClustering", "SeparatedClusters"],
      ["out", "AnatomicalTracts"]] }

/-- An atlas root holding both the ORG and the NABA naming variants of both
bundles, with the required artifacts inside the ORG variants. -/
def fsAtlasBoth : FS :=
  { files := [
      ["atlas", "ORG-RegAtlas-100HCP", "registration_atlas.vtk"],
      ["atlas", "ORG-800FC-100HCP", "atlas.p"],
      ["atlas", "ORG-800FC-100HCP", "atlas.vtp"]],
    dirs := [
      ["atlas"],
      ["atlas", "ORG-RegAtlas-100HCP"],
      ["atlas", "NABA-RegAtlas"],
      ["atlas", "ORG-800FC-100HCP"],
      ["atlas", "NABA-800FC"]] }

/-- A state in which the clustering atlas lacks the hemisphere-location file
but the orchestrator's bundled default exists. -/
def fsLocFallback : FS :=
  { files := [["app", "resources", "cluster_hemisphere_location.txt"]],
    dirs := [["atlas", "ORG-800FC-100HCP"]] }

/-- The startup context for `cfgBase` against `fsDone`-style states. -/
def ctxBase : Ctx :=
  { cfg := cfgBase,
    regDir := ["atlas", "ORG-RegAtlas-100HCP"],
    fcDir := ["atlas", "ORG-800FC-100HCP"],
    clusterLocationFile :=
      ["atlas", "ORG-800FC-100HCP", "cluster_hemisphere_location.txt"],
    subjectId := "subjectA",
    L := mkLayout ["out"] "subjectA" }

/-- The baseline configuration in non-rigid registration mode. -/
def cfgNR : Config :=
  { cfgBase with r := .nonrig }

/-- The startup context for `cfgNR`. -/
def ctxNR : Ctx :=
  { ctxBase with cfg := cfgNR }

/-- The startup context for `cfgT`. -/
def ctxT : Ctx :=
  { ctxBase with cfg := cfgT }

/-- State before the non-rigid un-transform phase: both transform files and
the staging directory exist, no transformed artifact yet. -/
def fsC4 : FS :=
  { files := [
      ["out", "subjectA", "TractRegistration", "subjectA_reg",
        "output_tractography", "itk_txform_subjectA_reg.tfm"],
      ["out", "subjectA", "TractRegistration", "subjectA",
        "output_tractography", "itk_txform_subjectA.tfm"]],
    dirs := [
      ["out", "subjectA", "FiberClustering", "TransformedClusters",
        "subjectA"],
      ["out", "subjectA", "FiberClustering", "TransformedClusters",
        "subjectA", "tmp"]] }

/-- The inverse non-rigid harden-transform command of the un-transform
phase under `ctxNR`. -/
def cmdNR1 : Cmd :=
  ["wm_harden_transform.py", "-i", "-t",
   "/out/subjectA/TractRegistration/subjectA_reg/output_tractography/itk_txform_subjectA_reg.tfm",
   "/out/subjectA/FiberClustering/OutlierRemovedClusters/subjectA_reg_reg_outlier_removed",
   "/out/subjectA/FiberClustering/TransformedClusters/subjectA/tmp",
   "/apps/Slicer"]

/-- The inverse affine harden-transform command of the un-transform phase
under `ctxNR`. -/
def cmdNR2 : Cmd :=
  ["wm_harden_transform.py", "-i", "-t",
   "/out/subjectA/TractRegistration/subjectA/output_tractography/itk_txform_subjectA.tfm",
   "/out/subjectA/FiberClustering/TransformedClusters/subjectA/tmp",
   "/out/subjectA/FiberClustering/TransformedClusters/subjectA",
   "/apps/Slicer"]

/-- `fsC4` after the inverse non-rigid transform produced the staging
artifact. -/
def fsC4a : FS :=
  ⟨fsC4.files ++ [["out", "subjectA", "FiberClustering",
    "TransformedClusters", "subjectA", "tmp", "cluster_00800.vtp"]],
   fsC4.dirs⟩

/-- `fsC4a` after the inverse affine transform produced the final
artifact. -/
def fsC4b : FS :=
  ⟨fsC4a.files ++ [["out", "subjectA", "FiberClustering",
    "TransformedClusters", "subjectA", "cluster_00800.vtp"]],
   fsC4a.dirs⟩

/-- External-tool behaviour that produces exactly the declared outputs of
the two un-transform commands. -/
def effC4 : Eff := fun cmd fs =>
  if cmd == cmdNR1 then some fsC4a
  else if cmd == cmdNR2 then some fsC4b
  else some fs

/-- State before the initial harden-transform stage of `cfgT`: the
transform file and the target directory exist. -/
def fsC10 : FS :=
  { files := [["xf", "t0.tfm"], ["data", "subjectA.vtk"]],
    dirs := [["out", "subjectA", "TransformedTracts"]] }

/-- External-tool behaviour for the initial harden-transform: deposits the
transformed copy of the input into the transformed-tracts directory. -/
def effC10 : Eff := fun _ fs =>
  some ⟨fs.files ++ [["out", "subjectA", "TransformedTracts",
    "subjectA.vtk"]], fs.dirs⟩

/-- State before registration with no registration output present. -/
def fsRegMissing : FS :=
  { files := [["data", "subjectA.vtk"]],
    dirs := [["out", "subjectA", "TractRegistration"]] }

/-- The inverse non-rigid harden-transform command of the non-rigid
un-transform phase (script lines 368-376). -/
def cmdHardenNonrigOf (ctx : Ctx) (fcCaseId : String) : Cmd :=
  ["wm_harden_transform.py", "-i", "-t",
   pathStr (ctx.nonrigSubject ++ ["output_tractography",
     "itk_txform_" ++ ctx.subjectId ++ "_reg.tfm"]),
   pathStr (ctx.outlierDirFor fcCaseId),
   pathStr (ctx.L.transformedClustersDir ++ ["tmp"]),
   pathStr ctx.cfg.s]

/-- The inverse affine harden-transform command of the non-rigid
un-transform phase (script lines 380-388). -/
def cmdHardenAffineOf (ctx : Ctx) : Cmd :=
  ["wm_harden_transform.py", "-i", "-t",
   pathStr (ctx.regSubjectDir ++ ["output_tractography",
     "itk_txform_" ++ ctx.subjectId ++ ".tfm"]),
   pathStr (ctx.L.transformedClustersDir ++ ["tmp"]),
   pathStr ctx.L.transformedClustersDir,
   pathStr ctx.cfg.s]

/-- The initial harden-transform command (script lines 224-231): its source
argument is the parent directory of the input file. -/
def cmdHardenInputOf (ctx : Ctx) (tPath : FPath) : Cmd :=
  ["wm_harden_transform.py", "-t", pathStr tPath,
   pathStr ctx.cfg.i.dropLast, pathStr ctx.L.transformedTractsDir,
   pathStr ctx.cfg.s]

/-- The rigid-mode registration command (script lines 246-253). -/
def cmdRegisterRigOf (ctx : Ctx) (activeInput : FPath) : Cmd :=
  ["wm_register_to_atlas_new.py", "-mode", "rigid_affine_fast",
   pathStr activeInput, pathStr (ctx.regDir ++ ["registration_atlas.vtk"]),
   pathStr ctx.L.registrationDir]


/-- `fsC10` after the harden-transform deposits the transformed input. -/
def fsC10x : FS :=
  ⟨fsC10.files ++ [["out", "subjectA", "TransformedTracts", "subjectA.vtk"]],
   fsC10.dirs⟩


/-- The rigid-mode inverse harden-transform command of the un-transform
phase (script lines 337-345). -/
def cmdHardenRigOf (ctx : Ctx) (fcCaseId : String) : Cmd :=
  ["wm_harden_transform.py", "-i", "-t",
   pathStr (ctx.regSubjectDir ++ ["output_tractography",
     "itk_txform_" ++ ctx.subjectId ++ ".tfm"]),
   pathStr (ctx.outlierDirFor fcCaseId),
   pathStr ctx.L.transformedClustersDir,
   pathStr ctx.cfg.s]


/-- Every command a stage appended beyond the incoming trace satisfies `P`:
the stage's result trace extends the base trace and each new command line
satisfies the predicate. -/
def TraceOnly (base : List Cmd) (r : St) (P : Cmd → Prop) : Prop :=
  ∃ l, r.cmds = base ++ l ∧ ∀ c ∈ l, P c


/-- The startup context for `cfgX` (virtual display on). -/
def ctxX : Ctx :=
  { ctxBase with cfg := cfgX }


theorem findFirstDir_some (fs : FS) (root : FPath) :
    ∀ (names : List String) (d : FPath), findFirstDir fs root names = some d →
    ∃ i, i < names.length ∧ d = root ++ [names.getD i ""] ∧
      fs.isDir d = true ∧
      ∀ j, j < i → fs.isDir (root ++ [names.getD j ""]) = false := by
  intro names
  induction names with
  | nil => intro d h; simp [findFirstDir] at h
  | cons n rest ih =>
    intro d h
    by_cases hd : fs.isDir (root ++ [n]) = true
    · rw [findFirstDir, if_pos hd] at h
      refine ⟨0, by simp, by simpa using h.symm, ?_, by omega⟩
      rw [← Option.some_inj.mp h]
      exact hd
    · rw [findFirstDir, if_neg hd] at h
      obtain ⟨i, hi, hdval, hdir, hbefore⟩ := ih d h
      refine ⟨i + 1, by simpa using hi, by simpa using hdval, hdir, ?_⟩
      intro j hj
      cases j with
      | zero => simpa using Bool.not_eq_true _ |>.mp hd
      | succ k => simpa using hbefore k (by omega)

theorem findFirstDir_none (fs : FS) (root : FPath) :
    ∀ names : List String, (∀ n ∈ names, fs.isDir (root ++ [n]) = false) →
    findFirstDir fs root names = none := by
  intro names
  induction names with
  | nil => intro _; rfl
  | cons n rest ih =>
    intro h
    rw [findFirstDir, if_neg (by simp [h n (by simp)])]
    exact ih fun m hm => h m (by simp [hm])

/-- C6: atlas resolution is first-match-wins over the fixed candidate
lists, and fails when the root is not a directory or when either bundle
kind has no matching subdirectory; on success the required reference
artifacts exist in the chosen directories. -/
theorem atlas_resolution_first_match (fs : FS) (root : FPath) :
    (fs.isDir root = false → ∃ e, findAtlasDirs fs root = .error e) ∧
    ((∀ n ∈ regCandidates, fs.isDir (root ++ [n]) = false) →
      ∃ e, findAtlasDirs fs root = .error e) ∧
    ((∀ n ∈ fcCandidates, fs.isDir (root ++ [n]) = false) →
      ∃ e, findAtlasDirs fs root = .error e) ∧
    (∀ regDir fcDir, findAtlasDirs fs root = .ok (regDir, fcDir) →
      fs.isDir root = true ∧
      fs.isFile (regDir ++ ["registration_atlas.vtk"]) = true ∧
      fs.isFile (fcDir ++ ["atlas.p"]) = true ∧
      fs.isFile (fcDir ++ ["atlas.vtp"]) = true ∧
      (∃ i, i < regCandidates.length ∧
        regDir = root ++ [regCandidates.getD i ""] ∧ fs.isDir regDir = true ∧
        ∀ j, j < i → fs.isDir (root ++ [regCandidates.getD j ""]) = false) ∧
      (∃ i, i < fcCandidates.length ∧
        fcDir = root ++ [fcCandidates.getD i ""] ∧ fs.isDir fcDir = true ∧
        ∀ j, j < i → fs.isDir (root ++ [fcCandidates.getD j ""]) = false)) := by
  refine ⟨?_, ?_, ?_, ?_⟩
  · intro h
    exact ⟨_, by rw [findAtlasDirs, if_pos (by simp [h])]⟩
  · intro h
    by_cases hroot : fs.isDir root = true
    · cases hf : findFirstDir fs root fcCandidates with
      | none => exact ⟨_, by rw [findAtlasDirs, if_neg (by simp [hroot]),
          findFirstDir_none fs root _ h, hf]⟩
      | some fd => exact ⟨_, by rw [findAtlasDirs, if_neg (by simp [hroot]),
          findFirstDir_none fs root _ h, hf]⟩
    · exact ⟨_, by rw [findAtlasDirs,
        if_pos (by simp [Bool.not_eq_true _ |>.mp hroot])]⟩
  · intro h
    by_cases hroot : fs.isDir root = true
    · cases hr : findFirstDir fs root regCandidates with
      | none => exact ⟨_, by rw [findAtlasDirs, if_neg (by simp [hroot]),
          findFirstDir_none fs root _ h, hr]⟩
      | some rd => exact ⟨_, by rw [findAtlasDirs, if_neg (by simp [hroot]),
          findFirstDir_none fs root _ h, hr]⟩
    · exact ⟨_, by rw [findAtlasDirs,
        if_pos (by simp [Bool.not_eq_true _ |>.mp hroot])]⟩
  · intro regDir fcDir h
    rw [findAtlasDirs] at h
    cases hroot : fs.isDir root with
    | false => simp [hroot] at h
    | true =>
      cases hr : findFirstDir fs root regCandidates with
      | none =>
        cases hf : findFirstDir fs root fcCandidates <;>
          simp [hroot, hr, hf] at h
      | some rd =>
        cases hf : findFirstDir fs root fcCandidates with
        | none => simp [hroot, hr, hf] at h
        | some fd =>
          cases h1 : fs.isFile (rd ++ ["registration_atlas.vtk"]) with
          | false => simp [hroot, hr, hf, h1] at h
          | true =>
            cases h2 : fs.isFile (fd ++ ["atlas.p"]) with
            | false => simp [hroot, hr, hf, h1, h2] at h
            | true =>
              cases h3 : fs.isFile (fd ++ ["atlas.vtp"]) with
              | false => simp [hroot, hr, hf, h1, h2, h3] at h
              | true =>
                simp [hroot, hr, hf, h1, h2, h3] at h
                obtain ⟨he1, he2⟩ := h
                subst he1; subst he2
                exact ⟨rfl, h1, h2, h3,
                  findFirstDir_some fs root _ _ hr,
                  findFirstDir_some fs root _ _ hf⟩

/-- Witness for C6: on a root holding both the ORG and NABA variants, the
resolver succeeds with the ORG variants, which come first in the candidate
order. -/
theorem atlas_resolution_first_match_witness :
    fsAtlasBoth.isDir ["atlas"] = true ∧
    fsAtlasBoth.isFile (["atlas", "ORG-RegAtlas-100HCP"] ++
      ["registration_atlas.vtk"]) = true ∧
    fsAtlasBoth.isFile (["atlas", "ORG-800FC-100HCP"] ++ ["atlas.p"]) = true ∧
    fsAtlasBoth.isFile (["atlas", "ORG-800FC-100HCP"] ++ ["atlas.vtp"]) = true ∧
    (∃ i, i < regCandidates.length ∧
      ["atlas", "ORG-RegAtlas-100HCP"] =
        ["atlas"] ++ [regCandidates.getD i ""] ∧
      fsAtlasBoth.isDir ["atlas", "ORG-RegAtlas-100HCP"] = true ∧
      ∀ j, j < i →
        fsAtlasBoth.isDir (["atlas"] ++ [regCandidates.getD j ""]) = false) ∧
    (∃ i, i < fcCandidates.length ∧
      ["atlas", "ORG-800FC-100HCP"] =
        ["atlas"] ++ [fcCandidates.getD i ""] ∧
      fsAtlasBoth.isDir ["atlas", "ORG-800FC-100HCP"] = true ∧
      ∀ j, j < i →
        fsAtlasBoth.isDir (["atlas"] ++ [fcCandidates.getD j ""]) = false) :=
  (atlas_resolution_first_match fsAtlasBoth ["atlas"]).2.2.2
    ["atlas", "ORG-RegAtlas-100HCP"] ["atlas", "ORG-800FC-100HCP"] (by decide)

/-- C7: hemisphere-location resolution prefers the copy bundled with the
clustering atlas, falls back to the orchestrator's bundled default, and
fails when neither exists. -/
theorem hemisphere_reference_fallback (fs : FS) (fcDir scriptDir : FPath) :
    (fs.isFile (fcDir ++ ["cluster_hemisphere_location.txt"]) = true →
      pickClusterLocationFile fs fcDir scriptDir =
        .ok (fcDir ++ ["cluster_hemisphere_location.txt"])) ∧
    (fs.isFile (fcDir ++ ["cluster_hemisphere_location.txt"]) = false →
      fs.isFile (scriptDir ++
        ["resources", "cluster_hemisphere_location.txt"]) = true →
      pickClusterLocationFile fs fcDir scriptDir =
        .ok (scriptDir ++ ["resources", "cluster_hemisphere_location.txt"])) ∧
    (fs.isFile (fcDir ++ ["cluster_hemisphere_location.txt"]) = false →
      fs.isFile (scriptDir ++
        ["resources", "cluster_hemisphere_location.txt"]) = false →
      ∃ e, pickClusterLocationFile fs fcDir scriptDir = .error e) := by
  refine ⟨?_, ?_, ?_⟩
  · intro h
    rw [pickClusterLocationFile, if_pos h]
  · intro h1 h2
    rw [pickClusterLocationFile, if_neg (by simp [h1]),
      if_neg (by simp [h2])]
  · intro h1 h2
    exact ⟨_, by rw [pickClusterLocationFile, if_neg (by simp [h1]),
      if_pos (by simp [h2])]⟩

/-- Witness for C7: with no hemisphere-location file in the clustering
atlas and the bundled default on disk, the fallback is returned. -/
theorem hemisphere_reference_fallback_witness :
    pickClusterLocationFile fsLocFallback ["atlas", "ORG-800FC-100HCP"]
      ["app"] = .ok (["app"] ++
        ["resources", "cluster_hemisphere_location.txt"]) :=
  (hemisphere_reference_fallback fsLocFallback
    ["atlas", "ORG-800FC-100HCP"] ["app"]).2.1 (by decide) (by decide)

theorem existsP_mk_le {l1 l2 : List FPath} {fs : FS} {q : FPath}
    (hf : ∀ x, x ∈ l1 → x ∈ fs.files) (hd : ∀ x, x ∈ l2 → x ∈ fs.dirs)
    (h : (FS.mk l1 l2).existsP q = true) : fs.existsP q = true := by
  simp [FS.existsP, FS.isFile, FS.isDir] at h ⊢
  rcases h with h | h
  · exact Or.inl (hf q h)
  · exact Or.inr (hd q h)

theorem rmtree_le {fs : FS} {t q : FPath}
    (h : (fs.rmtree t).existsP q = true) : fs.existsP q = true :=
  existsP_mk_le (fun _ hx => List.mem_of_mem_filter hx)
    (fun _ hx => List.mem_of_mem_filter hx) h

theorem rmtreeIfExists_le {t : FPath} {fs : FS} {q : FPath}
    (h : (rmtreeIfExists t fs).existsP q = true) : fs.existsP q = true := by
  unfold rmtreeIfExists at h
  split at h
  · exact rmtree_le h
  · exact h

theorem regCleanPass_le {rd : FPath} {fs : FS} {q : FPath}
    (h : (regCleanPass rd fs).existsP q = true) : fs.existsP q = true := by
  unfold regCleanPass at h
  split at h
  · exact existsP_mk_le
      (fun _ hx => List.mem_of_mem_filter (List.mem_of_mem_filter hx))
      (fun _ hx => List.mem_of_mem_filter hx) h
  · exact h

theorem outlierClearPass_le {od : FPath} {fs : FS} {q : FPath}
    (h : (outlierClearPass od fs).existsP q = true) : fs.existsP q = true := by
  unfold outlierClearPass at h
  split at h
  · exact existsP_mk_le (fun _ hx => List.mem_of_mem_filter hx)
      (fun _ hx => List.mem_of_mem_filter hx) h
  · exact h

theorem transformedLeavesPass_le {tr : FPath} {fs : FS} {q : FPath}
    (h : (transformedLeavesPass tr fs).existsP q = true) :
    fs.existsP q = true := by
  unfold transformedLeavesPass at h
  split at h
  · exact existsP_mk_le (fun _ hx => List.mem_of_mem_filter hx)
      (fun _ hx => hx) h
  · exact h

theorem cleanupMinimal_le {L : Layout} {fs : FS} {q : FPath}
    (h : (cleanupMinimal L fs).existsP q = true) : fs.existsP q = true :=
  rmtreeIfExists_le (rmtreeIfExists_le h)

theorem cleanupMaximal_le {L : Layout} {fs : FS} {q : FPath}
    (h : (cleanupMaximal L fs).existsP q = true) : fs.existsP q = true :=
  regCleanPass_le (rmtreeIfExists_le (outlierClearPass_le
    (transformedLeavesPass_le h)))

/-- C5: cleanup tiers are monotone: any artifact surviving the tier-2
cleanup also survives the tier-1 cleanup, and any artifact surviving the
tier-1 cleanup is present in the tier-0 (untouched) state. -/
theorem cleanup_tiers_monotone (L : Layout) (fs : FS) (p : FPath) :
    ((applyCleanup L 2 fs).existsP p = true →
      (applyCleanup L 1 fs).existsP p = true) ∧
    ((applyCleanup L 1 fs).existsP p = true →
      (applyCleanup L 0 fs).existsP p = true) := by
  constructor
  · intro h
    have h2 : applyCleanup L 2 fs = cleanupMaximal L (cleanupMinimal L fs) := by
      simp [applyCleanup]
    have h1 : applyCleanup L 1 fs = cleanupMinimal L fs := by
      simp [applyCleanup]
    rw [h2] at h
    rw [h1]
    exact cleanupMaximal_le h
  · intro h
    have h1 : applyCleanup L 1 fs = cleanupMinimal L fs := by
      simp [applyCleanup]
    have h0 : applyCleanup L 0 fs = fs := by simp [applyCleanup]
    rw [h1] at h
    rw [h0]
    exact cleanupMinimal_le h

/-- Witness for C5 at a concrete layout and post-run state: the input
artifact survives every tier. -/
theorem cleanup_tiers_monotone_witness :
    (applyCleanup (mkLayout ["out"] "subjectA") 1 fsDone).existsP
      ["data", "subjectA.vtk"] = true ∧
    (applyCleanup (mkLayout ["out"] "subjectA") 0 fsDone).existsP
      ["data", "subjectA.vtk"] = true :=
  ⟨(cleanup_tiers_monotone (mkLayout ["out"] "subjectA") fsDone
      ["data", "subjectA.vtk"]).1 (by decide),
   (cleanup_tiers_monotone (mkLayout ["out"] "subjectA") fsDone
      ["data", "subjectA.vtk"]).2 (by decide)⟩

theorem leadsTo_append (c a b : FPath) :
    leadsTo (c ++ a) (c ++ b) = leadsTo a b := by
  induction c with
  | nil => rfl
  | cons x xs ih => simp [leadsTo, ih]

theorem rmtree_pres_isDir {fs : FS} {t q : FPath} (hq : fs.isDir q = true)
    (hn : leadsTo t q = false) : (fs.rmtree t).isDir q = true := by
  simp [FS.rmtree, FS.isDir, List.mem_filter] at hq ⊢
  exact ⟨hq, by simp [hn]⟩

theorem rmtreeIfExists_pres_isDir {t : FPath} {fs : FS} {q : FPath}
    (hq : fs.isDir q = true) (hn : leadsTo t q = false) :
    (rmtreeIfExists t fs).isDir q = true := by
  unfold rmtreeIfExists
  split
  · exact rmtree_pres_isDir hq hn
  · exact hq

theorem regCleanPass_pres_isDir {rd : FPath} {fs : FS} {q : FPath}
    (hq : fs.isDir q = true) (hn : leadsTo rd q = false) :
    (regCleanPass rd fs).isDir q = true := by
  unfold regCleanPass
  split
  · simp [FS.isDir, List.mem_filter] at hq ⊢
    exact ⟨hq, by simp [iterMatch, hn]⟩
  · exact hq

/-- C9 (amended): the tier-2 cleanup removes every entry strictly below the
outlier-removed clusters directory — the working directories and their log
files included; only the directory itself survives. -/
theorem tier2_clears_outlier_dir (oroot : FPath) (sid : String) (fs : FS)
    (p : FPath)
    (hdir : fs.isDir (mkLayout oroot sid).outlierClustersDir = true)
    (hp : properUnder (mkLayout oroot sid).outlierClustersDir p = true) :
    (applyCleanup (mkLayout oroot sid) 2 fs).existsP p = false := by
  set L := mkLayout oroot sid with hL
  have hodEq : L.outlierClustersDir =
      ((pjoin oroot sid) ++ ["FiberClustering"]) ++
        ["OutlierRemovedClusters"] := by
    simp [hL, mkLayout]
  have hA1 : leadsTo L.initialClustersDir L.outlierClustersDir = false := by
    simp [hL, mkLayout]
    rw [leadsTo_append]
    decide
  have hA2 : leadsTo (L.clusteringRoot ++ ["TransformedClusters"])
      L.outlierClustersDir = false := by
    simp [hL, mkLayout]
    rw [leadsTo_append]
    decide
  have hA3 : leadsTo L.registrationDir L.outlierClustersDir = false := by
    simp [hL, mkLayout]
    rw [leadsTo_append]
    decide
  have h2 : applyCleanup L 2 fs = cleanupMaximal L (cleanupMinimal L fs) := by
    simp [applyCleanup]
  rw [h2]
  have hstep1 : (cleanupMinimal L fs).isDir L.outlierClustersDir = true :=
    rmtreeIfExists_pres_isDir (rmtreeIfExists_pres_isDir hdir hA1) hA2
  have hstep2 : (regCleanPass L.registrationDir
      (cleanupMinimal L fs)).isDir L.outlierClustersDir = true :=
    regCleanPass_pres_isDir hstep1 hA3
  have hstep3 : (rmtreeIfExists L.initialClustersDir (regCleanPass
      L.registrationDir (cleanupMinimal L fs))).isDir
      L.outlierClustersDir = true :=
    rmtreeIfExists_pres_isDir hstep2 hA1
  have hcleared : (outlierClearPass L.outlierClustersDir
      (rmtreeIfExists L.initialClustersDir (regCleanPass L.registrationDir
        (cleanupMinimal L fs)))).existsP p = false := by
    unfold outlierClearPass
    rw [if_pos (by simp [FS.existsP, hstep3])]
    simp [FS.existsP, FS.isFile, FS.isDir, List.mem_filter, hp]
  unfold cleanupMaximal
  cases hfin : (transformedLeavesPass (L.clusteringRoot ++
      ["TransformedClusters"]) (outlierClearPass L.outlierClustersDir
      (rmtreeIfExists L.initialClustersDir (regCleanPass L.registrationDir
        (cleanupMinimal L fs))))).existsP p with
  | false => rfl
  | true => rw [transformedLeavesPass_le hfin] at hcleared; cases hcleared

/-- Counterexample for C9 as stated: the hemisphere-assessment log exists
before cleanup and is gone after the tier-2 cleanup. -/
theorem tier2_deletes_outlier_logs :
    fsDone.isFile ["out", "subjectA", "FiberClustering",
      "OutlierRemovedClusters", "subjectA_reg_outlier_removed",
      "cluster_location_by_hemisphere.log"] = true ∧
    (applyCleanup (mkLayout ["out"] "subjectA") 2 fsDone).existsP
      ["out", "subjectA", "FiberClustering", "OutlierRemovedClusters",
        "subjectA_reg_outlier_removed",
        "cluster_location_by_hemisphere.log"] = false := by
  constructor
  · decide
  · decide

/-- Witness for the amended C9 at a concrete state: the outlier-removal
cluster artifact is also gone after tier-2 cleanup. -/
theorem tier2_clears_outlier_dir_witness :
    (applyCleanup (mkLayout ["out"] "subjectA") 2 fsDone).existsP
      ["out", "subjectA", "FiberClustering", "OutlierRemovedClusters",
        "subjectA_reg_outlier_removed", "cluster_00800.vtp"] = false :=
  tier2_clears_outlier_dir ["out"] "subjectA" fsDone _ (by decide) (by decide)

theorem mkdirP_eq_self {fs : FS} {p : FPath} (h : fs.isDir p = true) :
    fs.mkdirP p = fs := by
  unfold FS.mkdirP
  rw [if_pos h]

theorem nonrigid_untransform_order (E : Eff) (ctx : Ctx) (fcCaseId : String)
    (st : St) (fs1 fs2 : FS)
    (hmode : ctx.cfg.r = .nonrig)
    (hd1 : st.fs.isDir ctx.L.transformedClustersDir = true)
    (hd2 : st.fs.isDir (ctx.L.transformedClustersDir ++ ["tmp"]) = true)
    (htn : st.fs.isFile (ctx.nonrigSubject ++ ["output_tractography",
      "itk_txform_" ++ ctx.subjectId ++ "_reg.tfm"]) = true)
    (hta : st.fs.isFile (ctx.regSubjectDir ++ ["output_tractography",
      "itk_txform_" ++ ctx.subjectId ++ ".tfm"]) = true)
    (hmiss1 : st.fs.isFile ((ctx.L.transformedClustersDir ++ ["tmp"]) ++
      ["cluster_00800.vtp"]) = false)
    (hE1 : E (wrapX ctx.cfg.x (cmdHardenNonrigOf ctx fcCaseId)) st.fs =
      some fs1)
    (hmiss2 : fs1.isFile (ctx.L.transformedClustersDir ++
      ["cluster_00800.vtp"]) = false)
    (hE2 : E (wrapX ctx.cfg.x (cmdHardenAffineOf ctx)) fs1 = some fs2)
    (hdone : fs2.isFile (ctx.L.transformedClustersDir ++
      ["cluster_00800.vtp"]) = true) :
    transformClustersStage E ctx fcCaseId st =
      .ok ⟨fs2, st.cmds ++ [wrapX ctx.cfg.x (cmdHardenNonrigOf ctx fcCaseId),
        wrapX ctx.cfg.x (cmdHardenAffineOf ctx)]⟩ := by
  simp only [cmdHardenNonrigOf] at hE1
  simp only [cmdHardenAffineOf] at hE2
  simp only [transformClustersStage, hmode, mkdirP_eq_self hd1,
    mkdirP_eq_self hd2, htn, hta, hmiss1, hmiss2, runWithXvfb, runCmdE,
    hE1, hE2, transformedRecheck, hdone, Bool.not_true, Bool.not_false,
    Bool.false_eq_true, Bool.true_eq_false, if_false, if_true,
    bind, Except.bind, cmdHardenNonrigOf, cmdHardenAffineOf]
  simp [List.append_assoc]

/-- Witness for C4: a concrete non-rigid un-transform phase runs the
non-rigid inverse into the staging directory and then the affine inverse
into the final directory. -/
theorem nonrigid_untransform_order_witness :
    transformClustersStage effC4 ctxNR "subjectA_reg_reg" ⟨fsC4, []⟩ =
      .ok ⟨fsC4b,
        [wrapX ctxNR.cfg.x (cmdHardenNonrigOf ctxNR "subjectA_reg_reg"),
         wrapX ctxNR.cfg.x (cmdHardenAffineOf ctxNR)]⟩ :=
  nonrigid_untransform_order effC4 ctxNR "subjectA_reg_reg" ⟨fsC4, []⟩
    fsC4a fsC4b (by decide) (by decide) (by decide) (by decide) (by decide)
    (by decide) (by decide) (by decide) (by decide) (by decide)

/-- C10: when a size-matching transform is configured, the harden-transform
command receives the parent directory of the input file as its source
argument, and the stage then succeeds or fails solely on whether the
transformed copy of the named input exists in the transformed-tracts
directory. -/
theorem harden_input_source_is_parent (E : Eff) (ctx : Ctx) (st : St)
    (tPath : FPath) (fs' : FS)
    (ht : ctx.cfg.t = some tPath)
    (htf : st.fs.isFile tPath = true)
    (hdir : st.fs.isDir ctx.L.transformedTractsDir = true)
    (hE : E (wrapX ctx.cfg.x (cmdHardenInputOf ctx tPath)) st.fs = some fs') :
    transformInputStage E ctx st =
      if fs'.isFile (ctx.L.transformedTractsDir ++ [pname ctx.cfg.i]) then
        .ok (⟨fs', st.cmds ++ [wrapX ctx.cfg.x (cmdHardenInputOf ctx tPath)]⟩,
          ctx.L.transformedTractsDir ++ [pname ctx.cfg.i])
      else
        .error (.err "ERROR: Transformed input not found.",
          ⟨fs', st.cmds ++ [wrapX ctx.cfg.x (cmdHardenInputOf ctx tPath)]⟩) := by
  simp only [cmdHardenInputOf] at hE
  simp only [transformInputStage, ht, htf, mkdirP_eq_self hdir, runWithXvfb,
    runCmdE, hE, bind, Except.bind, Bool.not_true, Bool.false_eq_true,
    if_false, cmdHardenInputOf]
  cases hfin : fs'.isFile (ctx.L.transformedTractsDir ++ [pname ctx.cfg.i]) <;>
    simp [hfin]

/-- Witness for C10 at a concrete state where the tool deposits the
transformed input. -/
theorem harden_input_source_is_parent_witness :
    transformInputStage effC10 ctxT ⟨fsC10, []⟩ =
      if fsC10x.isFile (ctxT.L.transformedTractsDir ++ [pname ctxT.cfg.i]) then
        .ok (⟨fsC10x, [] ++ [wrapX ctxT.cfg.x
          (cmdHardenInputOf ctxT ["xf", "t0.tfm"])]⟩,
          ctxT.L.transformedTractsDir ++ [pname ctxT.cfg.i])
      else
        .error (.err "ERROR: Transformed input not found.",
          ⟨fsC10x, [] ++ [wrapX ctxT.cfg.x
            (cmdHardenInputOf ctxT ["xf", "t0.tfm"])]⟩) :=
  harden_input_source_is_parent effC10 ctxT ⟨fsC10, []⟩ ["xf", "t0.tfm"]
    fsC10x (by decide) (by decide) (by decide) (by decide)

theorem runCmdE_stub (cmd : Cmd) (st : St) :
    runCmdE stubEff cmd st = .ok ⟨st.fs, st.cmds ++ [cmd]⟩ := rfl

theorem clusteringStage_stub_ok (ctx : Ctx) (rOut : FPath) (st : St) :
    ∃ st1, clusteringStage stubEff ctx rOut st = .ok st1 := by
  simp only [clusteringStage]
  split
  · exact ⟨_, rfl⟩
  · exact ⟨_, rfl⟩

theorem outlierStage_stub_ok (ctx : Ctx) (fcId : String) (st : St) :
    ∃ st1, outlierStage stubEff ctx fcId st = .ok st1 := by
  simp only [outlierStage]
  split
  · exact ⟨_, rfl⟩
  · exact ⟨_, rfl⟩

theorem assessStage_stub_ok (ctx : Ctx) (fcId : String) (st : St) :
    ∃ st1, assessStage stubEff ctx fcId st = .ok st1 := by
  simp only [assessStage]
  split
  · exact ⟨_, rfl⟩
  · exact ⟨_, rfl⟩

theorem separationStage_stub_ok (ctx : Ctx) (st : St) :
    ∃ st1, separationStage stubEff ctx st = .ok st1 := by
  simp only [separationStage]
  split
  · exact ⟨_, rfl⟩
  · exact ⟨_, rfl⟩

theorem aggregationStage_stub_ok (ctx : Ctx) (fin : FPath) (st : St) :
    ∃ st1, aggregationStage stubEff ctx fin st = .ok st1 := by
  simp only [aggregationStage]
  split
  · exact ⟨_, rfl⟩
  · exact ⟨_, rfl⟩

theorem measureOne_stub_ok (ctx : Ctx) (r : String) (dir : FPath)
    (sc : String) (st : St) :
    ∃ st1, measureOne stubEff ctx r dir sc st = .ok st1 := by
  simp only [measureOne]
  split
  · exact ⟨_, rfl⟩
  · exact ⟨_, rfl⟩

theorem measurementStage_stub_ok (ctx : Ctx) (fin : FPath) (st : St) :
    ∃ st1, measurementStage stubEff ctx fin st = .ok st1 := by
  simp only [measurementStage]
  split
  · exact ⟨_, rfl⟩
  · obtain ⟨s1, h1⟩ := measureOne_stub_ok ctx "commissural"
      (fin ++ ["tracts_commissural"]) _ st
    rw [h1]
    simp only [bind, Except.bind]
    obtain ⟨s2, h2⟩ := measureOne_stub_ok ctx "left"
      (fin ++ ["tracts_left_hemisphere"]) _ s1
    rw [h2]
    simp only [bind, Except.bind]
    obtain ⟨s3, h3⟩ := measureOne_stub_ok ctx "right"
      (fin ++ ["tracts_right_hemisphere"]) _ s2
    rw [h3]
    simp only [bind, Except.bind]
    split
    · exact ⟨_, rfl⟩
    · exact ⟨_, rfl⟩

theorem invLoop_stub_ok (ctx : Ctx) (tfm : FPath) :
    ∀ (names : List String) (st : St),
    ∃ st1, invLoop stubEff ctx tfm names st = .ok st1 := by
  intro names
  induction names with
  | nil => intro st; exact ⟨st, rfl⟩
  | cons nm rest ih =>
    intro st
    simp only [invLoop]
    split
    · exact ih st
    · split
      · exact ih _
      · exact ih _

theorem inverseTransformStage_stub_ok (ctx : Ctx) (st : St)
    (ht : ∀ tp, ctx.cfg.t = some tp → st.fs.isFile tp = true) :
    ∃ st1, inverseTransformStage stubEff ctx st = .ok st1 := by
  unfold inverseTransformStage
  cases hct : ctx.cfg.t with
  | none => exact ⟨st, rfl⟩
  | some tp =>
    simp only [hct]
    rw [if_neg (by simp [ht tp hct])]
    exact invLoop_stub_ok ctx tp _ _

theorem transformInput_recheck_err (E : Eff) (ctx : Ctx) (st : St)
    (tPath : FPath) (fs' : FS)
    (ht : ctx.cfg.t = some tPath) (htf : st.fs.isFile tPath = true)
    (hdir : st.fs.isDir ctx.L.transformedTractsDir = true)
    (hE : E (wrapX ctx.cfg.x (cmdHardenInputOf ctx tPath)) st.fs = some fs')
    (hmiss : fs'.isFile (ctx.L.transformedTractsDir ++
      [pname ctx.cfg.i]) = false) :
    transformInputStage E ctx st = .error
      (.err "ERROR: Transformed input not found.",
       ⟨fs', st.cmds ++ [wrapX ctx.cfg.x (cmdHardenInputOf ctx tPath)]⟩) := by
  simp only [cmdHardenInputOf] at hE
  simp only [transformInputStage, ht, htf, mkdirP_eq_self hdir, runWithXvfb,
    runCmdE, hE, bind, Except.bind, hmiss, Bool.not_true, Bool.not_false,
    Bool.false_eq_true, if_false, if_true, cmdHardenInputOf]

theorem registration_recheck_err (E : Eff) (ctx : Ctx) (ai : FPath) (st : St)
    (fs' : FS)
    (hmode : ctx.cfg.r = .rig)
    (hdir : st.fs.isDir ctx.L.registrationDir = true)
    (hmiss0 : st.fs.isFile (ctx.regSubjectDir ++ ["output_tractography",
      ctx.subjectId ++ "_reg.vtk"]) = false)
    (hE : E (cmdRegisterRigOf ctx ai) st.fs = some fs')
    (hmiss1 : fs'.isFile (ctx.regSubjectDir ++ ["output_tractography",
      ctx.subjectId ++ "_reg.vtk"]) = false) :
    registrationStage E ctx ai st = .error
      (.err "ERROR: Registration output not found.",
       ⟨fs', st.cmds ++ [cmdRegisterRigOf ctx ai]⟩) := by
  simp only [cmdRegisterRigOf] at hE
  simp only [registrationStage, hmode, mkdirP_eq_self hdir, hmiss0, runCmdE,
    hE, bind, Except.bind, pure, Except.pure, hmiss1, Bool.not_true, Bool.false_eq_true,
    if_false, if_true, cmdRegisterRigOf]
  simp

theorem registration_tool_failed (E : Eff) (ctx : Ctx) (ai : FPath) (st : St)
    (hmode : ctx.cfg.r = .rig)
    (hdir : st.fs.isDir ctx.L.registrationDir = true)
    (hmiss0 : st.fs.isFile (ctx.regSubjectDir ++ ["output_tractography",
      ctx.subjectId ++ "_reg.vtk"]) = false)
    (hE : E (cmdRegisterRigOf ctx ai) st.fs = none) :
    registrationStage E ctx ai st = .error
      (.toolFailed (cmdRegisterRigOf ctx ai),
       ⟨st.fs, st.cmds ++ [cmdRegisterRigOf ctx ai]⟩) := by
  simp only [cmdRegisterRigOf] at hE
  simp only [registrationStage, hmode, mkdirP_eq_self hdir, hmiss0, runCmdE,
    hE, bind, Except.bind, pure, Except.pure, Bool.not_true, Bool.false_eq_true,
    if_false, if_true, cmdRegisterRigOf]

theorem transformClusters_recheck_err (E : Eff) (ctx : Ctx)
    (fcCaseId : String) (st : St) (fs' : FS)
    (hmode : ctx.cfg.r = .rig)
    (hdir : st.fs.isDir ctx.L.transformedClustersDir = true)
    (htfm : st.fs.isFile (ctx.regSubjectDir ++ ["output_tractography",
      "itk_txform_" ++ ctx.subjectId ++ ".tfm"]) = true)
    (hmiss0 : st.fs.isFile (ctx.L.transformedClustersDir ++
      ["cluster_00800.vtp"]) = false)
    (hE : E (wrapX ctx.cfg.x (cmdHardenRigOf ctx fcCaseId)) st.fs = some fs')
    (hmiss1 : fs'.isFile (ctx.L.transformedClustersDir ++
      ["cluster_00800.vtp"]) = false) :
    transformClustersStage E ctx fcCaseId st = .error
      (.err "ERROR: Transformed clusters not found.",
       ⟨fs', st.cmds ++ [wrapX ctx.cfg.x (cmdHardenRigOf ctx fcCaseId)]⟩) := by
  simp only [cmdHardenRigOf] at hE
  simp only [transformClustersStage, hmode, mkdirP_eq_self hdir, htfm,
    hmiss0, runWithXvfb, runCmdE, hE, bind, Except.bind, hmiss1,
    transformedRecheck, Bool.not_true, Bool.not_false, Bool.false_eq_true,
    if_false, if_true, cmdHardenRigOf]

/-- C2 (amended): the initial harden-transform, the registration stage and
the atlas-space transform stage re-check their expected output after the
invocation and fail with a stage-specific missing-output diagnostic (a
printed error and exit 1), structurally distinct from the non-zero-exit
failure (an uncaught CalledProcessError); the clustering, outlier-removal,
hemisphere-assessment, separation, inverse-transform, aggregation and
measurement stages perform no such re-check: under a stub external command
that exits 0 without producing anything they all report success. -/
theorem output_recheck_only_some_stages :
    (∀ (E : Eff) (ctx : Ctx) (st : St) (tPath : FPath) (fs' : FS),
      ctx.cfg.t = some tPath → st.fs.isFile tPath = true →
      st.fs.isDir ctx.L.transformedTractsDir = true →
      E (wrapX ctx.cfg.x (cmdHardenInputOf ctx tPath)) st.fs = some fs' →
      fs'.isFile (ctx.L.transformedTractsDir ++ [pname ctx.cfg.i]) = false →
      transformInputStage E ctx st = .error
        (.err "ERROR: Transformed input not found.",
         ⟨fs', st.cmds ++ [wrapX ctx.cfg.x (cmdHardenInputOf ctx tPath)]⟩)) ∧
    (∀ (E : Eff) (ctx : Ctx) (ai : FPath) (st : St) (fs' : FS),
      ctx.cfg.r = .rig → st.fs.isDir ctx.L.registrationDir = true →
      st.fs.isFile (ctx.regSubjectDir ++ ["output_tractography",
        ctx.subjectId ++ "_reg.vtk"]) = false →
      E (cmdRegisterRigOf ctx ai) st.fs = some fs' →
      fs'.isFile (ctx.regSubjectDir ++ ["output_tractography",
        ctx.subjectId ++ "_reg.vtk"]) = false →
      registrationStage E ctx ai st = .error
        (.err "ERROR: Registration output not found.",
         ⟨fs', st.cmds ++ [cmdRegisterRigOf ctx ai]⟩)) ∧
    (∀ (E : Eff) (ctx : Ctx) (ai : FPath) (st : St),
      ctx.cfg.r = .rig → st.fs.isDir ctx.L.registrationDir = true →
      st.fs.isFile (ctx.regSubjectDir ++ ["output_tractography",
        ctx.subjectId ++ "_reg.vtk"]) = false →
      E (cmdRegisterRigOf ctx ai) st.fs = none →
      registrationStage E ctx ai st = .error
        (.toolFailed (cmdRegisterRigOf ctx ai),
         ⟨st.fs, st.cmds ++ [cmdRegisterRigOf ctx ai]⟩)) ∧
    (∀ (E : Eff) (ctx : Ctx) (fcCaseId : String) (st : St) (fs' : FS),
      ctx.cfg.r = .rig → st.fs.isDir ctx.L.transformedClustersDir = true →
      st.fs.isFile (ctx.regSubjectDir ++ ["output_tractography",
        "itk_txform_" ++ ctx.subjectId ++ ".tfm"]) = true →
      st.fs.isFile (ctx.L.transformedClustersDir ++
        ["cluster_00800.vtp"]) = false →
      E (wrapX ctx.cfg.x (cmdHardenRigOf ctx fcCaseId)) st.fs = some fs' →
      fs'.isFile (ctx.L.transformedClustersDir ++
        ["cluster_00800.vtp"]) = false →
      transformClustersStage E ctx fcCaseId st = .error
        (.err "ERROR: Transformed clusters not found.",
         ⟨fs', st.cmds ++ [wrapX ctx.cfg.x (cmdHardenRigOf ctx fcCaseId)]⟩)) ∧
    (∀ (ctx : Ctx) (rOut : FPath) (st : St),
      ∃ st1, clusteringStage stubEff ctx rOut st = .ok st1) ∧
    (∀ (ctx : Ctx) (fcId : String) (st : St),
      ∃ st1, outlierStage stubEff ctx fcId st = .ok st1) ∧
    (∀ (ctx : Ctx) (fcId : String) (st : St),
      ∃ st1, assessStage stubEff ctx fcId st = .ok st1) ∧
    (∀ (ctx : Ctx) (st : St),
      ∃ st1, separationStage stubEff ctx st = .ok st1) ∧
    (∀ (ctx : Ctx) (st : St),
      (∀ tp, ctx.cfg.t = some tp → st.fs.isFile tp = true) →
      ∃ st1, inverseTransformStage stubEff ctx st = .ok st1) ∧
    (∀ (ctx : Ctx) (fin : FPath) (st : St),
      ∃ st1, aggregationStage stubEff ctx fin st = .ok st1) ∧
    (∀ (ctx : Ctx) (fin : FPath) (st : St),
      ∃ st1, measurementStage stubEff ctx fin st = .ok st1) :=
  ⟨transformInput_recheck_err, registration_recheck_err,
   registration_tool_failed, transformClusters_recheck_err,
   clusteringStage_stub_ok, outlierStage_stub_ok, assessStage_stub_ok,
   separationStage_stub_ok, inverseTransformStage_stub_ok,
   aggregationStage_stub_ok, measurementStage_stub_ok⟩

/-- Counterexample for C2 as stated: with every upstream artifact present
but the aggregation output missing, a stubbed aggregation command exits 0
producing nothing, yet the run completes successfully (exit 0) instead of
failing with a missing-output error. -/
theorem stub_aggregation_run_succeeds :
    runMain stubEff cfgBase fsNoAppend = .ok ⟨fsNoAppend,
      [["python3", "/app/wm_append_clusters_to_anatomical_tracts_naba.py",
        "/out/subjectA/FiberClustering/SeparatedClusters",
        "/atlas/ORG-800FC-100HCP", "/out/subjectA/AnatomicalTracts"]]⟩ ∧
    fsNoAppend.isFile ["out", "subjectA", "AnatomicalTracts",
      "T_UF_right.vtp"] = false := by
  constructor
  · decide
  · decide

/-- Witness for the amended C2: a concrete stubbed registration run fails
with the stage-specific missing-output diagnostic. -/
theorem output_recheck_only_some_stages_witness :
    registrationStage stubEff ctxBase ["data", "subjectA.vtk"]
      ⟨fsRegMissing, []⟩ = .error
      (.err "ERROR: Registration output not found.",
       ⟨fsRegMissing, [] ++ [cmdRegisterRigOf ctxBase
         ["data", "subjectA.vtk"]]⟩) :=
  output_recheck_only_some_stages.2.1 stubEff ctxBase ["data", "subjectA.vtk"]
    ⟨fsRegMissing, []⟩ fsRegMissing (by decide) (by decide) (by decide)
    (by decide) (by decide)

theorem traceOnly_refl (st : St) (P : Cmd → Prop) : TraceOnly st.cmds st P :=
  ⟨[], by simp, by simp⟩

theorem traceOnly_trans {base : List Cmd} {mid fin : St} {P : Cmd → Prop}
    (h1 : TraceOnly base mid P) (h2 : TraceOnly mid.cmds fin P) :
    TraceOnly base fin P := by
  obtain ⟨l1, e1, p1⟩ := h1
  obtain ⟨l2, e2, p2⟩ := h2
  refine ⟨l1 ++ l2, by simp [e2, e1], ?_⟩
  intro c hc
  rcases List.mem_append.mp hc with h | h
  · exact p1 c h
  · exact p2 c h

theorem traceOnly_runCmdE (E : Eff) (cmd : Cmd) (st : St) (P : Cmd → Prop)
    (hc : P cmd) :
    TraceOnly st.cmds (outSt (runCmdE E cmd st)) P := by
  refine ⟨[cmd], ?_, by simpa using hc⟩
  cases h : E cmd st.fs with
  | none => simp [runCmdE, outSt, h]
  | some fs' => simp [runCmdE, outSt, h]

theorem clustering_trace (E : Eff) (ctx : Ctx) (rOut : FPath) (st : St) :
    TraceOnly st.cmds (outSt (clusteringStage E ctx rOut st))
      (fun c => c.headD "" = "wm_cluster_from_atlas.py") := by
  simp only [clusteringStage]
  split
  · exact ⟨[], by simp [outSt], by simp⟩
  · exact traceOnly_runCmdE _ _ _ _ rfl

theorem outlier_trace (E : Eff) (ctx : Ctx) (fcId : String) (st : St) :
    TraceOnly st.cmds (outSt (outlierStage E ctx fcId st))
      (fun c => c.headD "" = "wm_cluster_remove_outliers.py") := by
  simp only [outlierStage]
  split
  · exact ⟨[], by simp [outSt], by simp⟩
  · exact traceOnly_runCmdE _ _ _ _ rfl

theorem assess_trace (E : Eff) (ctx : Ctx) (fcId : String) (st : St) :
    TraceOnly st.cmds (outSt (assessStage E ctx fcId st))
      (fun c => c.headD "" = "wm_assess_cluster_location_by_hemisphere.py") := by
  simp only [assessStage]
  split
  · exact ⟨[], by simp [outSt], by simp⟩
  · exact traceOnly_runCmdE _ _ _ _ rfl

theorem separation_trace (E : Eff) (ctx : Ctx) (st : St) :
    TraceOnly st.cmds (outSt (separationStage E ctx st))
      (fun c => c.headD "" = "wm_separate_clusters_by_hemisphere.py") := by
  simp only [separationStage]
  split
  · exact ⟨[], by simp [outSt], by simp⟩
  · exact traceOnly_runCmdE _ _ _ _ rfl

theorem aggregation_trace (E : Eff) (ctx : Ctx) (fin : FPath) (st : St) :
    TraceOnly st.cmds (outSt (aggregationStage E ctx fin st))
      (fun c => c.headD "" = ctx.cfg.pyExe) := by
  simp only [aggregationStage]
  split
  · exact ⟨[], by simp [outSt], by simp⟩
  · exact traceOnly_runCmdE _ _ _ _ rfl

theorem traceOnly_runCmdE_head (E : Eff) (a : String) (rest : List String)
    (st : St) :
    TraceOnly st.cmds (outSt (runCmdE E (a :: rest) st))
      (fun c => c.headD "" = a) :=
  traceOnly_runCmdE E (a :: rest) st _ rfl

theorem registration_trace (E : Eff) (ctx : Ctx) (ai : FPath) (st : St) :
    TraceOnly st.cmds (outStP (registrationStage E ctx ai st))
      (fun c => c.headD "" = "wm_register_to_atlas_new.py") := by
  have hbig := fun (m : String) (src : FPath) (s : St) =>
    traceOnly_runCmdE_head E "wm_register_to_atlas_new.py"
      ["-mode", m, pathStr src, pathStr (ctx.regDir ++
        ["registration_atlas.vtk"]), pathStr ctx.L.registrationDir] s
  simp only [registrationStage, bind, Except.bind, pure, Except.pure]
  cases hr : ctx.cfg.r with
  | rig =>
    simp only [hr]
    split
    · split
      · exact ⟨[], by simp [outStP], by simp⟩
      · exact ⟨[], by simp [outStP], by simp⟩
    · split
      · rename_i err heq
        have h0 := hbig "rigid_affine_fast" ai
          (⟨st.fs.mkdirP ctx.L.registrationDir, st.cmds⟩ : St)
        rw [heq] at h0
        exact h0
      · rename_i v heq
        have h0 := hbig "rigid_affine_fast" ai
          (⟨st.fs.mkdirP ctx.L.registrationDir, st.cmds⟩ : St)
        rw [heq] at h0
        split
        · exact h0
        · exact h0
  | nonrig =>
    simp only [hr]
    split
    · split
      · split
        · exact ⟨[], by simp [outStP], by simp⟩
        · exact ⟨[], by simp [outStP], by simp⟩
      · split
        · rename_i err heq
          have h0 := hbig "nonrigid" (ctx.regSubjectDir ++
            ["output_tractography", ctx.subjectId ++ "_reg.vtk"])
            (⟨st.fs.mkdirP ctx.L.registrationDir, st.cmds⟩ : St)
          rw [heq] at h0
          exact h0
        · rename_i v heq
          have h0 := hbig "nonrigid" (ctx.regSubjectDir ++
            ["output_tractography", ctx.subjectId ++ "_reg.vtk"])
            (⟨st.fs.mkdirP ctx.L.registrationDir, st.cmds⟩ : St)
          rw [heq] at h0
          split
          · exact h0
          · exact h0
    · split
      · rename_i err heq
        have h0 := hbig "affine" ai
          (⟨st.fs.mkdirP ctx.L.registrationDir, st.cmds⟩ : St)
        rw [heq] at h0
        exact h0
      · rename_i v heq
        have h0 := hbig "affine" ai
          (⟨st.fs.mkdirP ctx.L.registrationDir, st.cmds⟩ : St)
        rw [heq] at h0
        split
        · split
          · exact h0
          · exact h0
        · split
          · rename_i err2 heq2
            have h1 := hbig "nonrigid" (ctx.regSubjectDir ++
              ["output_tractography", ctx.subjectId ++ "_reg.vtk"]) v
            rw [heq2] at h1
            exact traceOnly_trans h0 h1
          · rename_i v2 heq2
            have h1 := hbig "nonrigid" (ctx.regSubjectDir ++
              ["output_tractography", ctx.subjectId ++ "_reg.vtk"]) v
            rw [heq2] at h1
            split
            · exact traceOnly_trans h0 h1
            · exact traceOnly_trans h0 h1

theorem transformInput_trace (E : Eff) (ctx : Ctx) (st : St)
    (hx : ctx.cfg.x = true) :
    TraceOnly st.cmds (outStP (transformInputStage E ctx st))
      (fun c => c.headD "" = "xvfb-run") := by
  simp only [transformInputStage, bind, Except.bind, runWithXvfb, wrapX, hx,
    if_true, List.cons_append, List.nil_append, eq_self_iff_true]
  cases hct : ctx.cfg.t with
  | none =>
    simp only [hct]
    exact ⟨[], by simp [outStP], by simp⟩
  | some tp =>
    simp only [hct]
    split
    · exact ⟨[], by simp [outStP], by simp⟩
    · split
      · rename_i err heq
        have h0 := traceOnly_runCmdE_head E "xvfb-run"
          ("-a" :: ["wm_harden_transform.py", "-t", pathStr tp,
            pathStr ctx.cfg.i.dropLast, pathStr ctx.L.transformedTractsDir,
            pathStr ctx.cfg.s])
          (⟨st.fs.mkdirP ctx.L.transformedTractsDir, st.cmds⟩ : St)
        rw [heq] at h0
        exact h0
      · rename_i v heq
        have h0 := traceOnly_runCmdE_head E "xvfb-run"
          ("-a" :: ["wm_harden_transform.py", "-t", pathStr tp,
            pathStr ctx.cfg.i.dropLast, pathStr ctx.L.transformedTractsDir,
            pathStr ctx.cfg.s])
          (⟨st.fs.mkdirP ctx.L.transformedTractsDir, st.cmds⟩ : St)
        rw [heq] at h0
        split
        · exact h0
        · exact h0

theorem transformedRecheck_trace (td : FPath) (s : St) (P : Cmd → Prop) :
    TraceOnly s.cmds (outSt (transformedRecheck td s)) P := by
  unfold transformedRecheck
  split
  · exact ⟨[], by simp [outSt], by simp⟩
  · exact ⟨[], by simp [outSt], by simp⟩

theorem transformClusters_trace (E : Eff) (ctx : Ctx) (fcId : String)
    (st : St) (hx : ctx.cfg.x = true) :
    TraceOnly st.cmds (outSt (transformClustersStage E ctx fcId st))
      (fun c => c.headD "" = "xvfb-run") := by
  have hrig := fun (s : St) => traceOnly_runCmdE_head E "xvfb-run"
    ("-a" :: ["wm_harden_transform.py", "-i", "-t",
      pathStr (ctx.regSubjectDir ++ ["output_tractography",
        "itk_txform_" ++ ctx.subjectId ++ ".tfm"]),
      pathStr (ctx.outlierDirFor fcId),
      pathStr ctx.L.transformedClustersDir, pathStr ctx.cfg.s]) s
  have hnr := fun (s : St) => traceOnly_runCmdE_head E "xvfb-run"
    ("-a" :: ["wm_harden_transform.py", "-i", "-t",
      pathStr (ctx.nonrigSubject ++ ["output_tractography",
        "itk_txform_" ++ ctx.subjectId ++ "_reg.tfm"]),
      pathStr (ctx.outlierDirFor fcId),
      pathStr (ctx.L.transformedClustersDir ++ ["tmp"]),
      pathStr ctx.cfg.s]) s
  have haf := fun (s : St) => traceOnly_runCmdE_head E "xvfb-run"
    ("-a" :: ["wm_harden_transform.py", "-i", "-t",
      pathStr (ctx.regSubjectDir ++ ["output_tractography",
        "itk_txform_" ++ ctx.subjectId ++ ".tfm"]),
      pathStr (ctx.L.transformedClustersDir ++ ["tmp"]),
      pathStr ctx.L.transformedClustersDir, pathStr ctx.cfg.s]) s
  simp only [transformClustersStage, bind, Except.bind, pure, Except.pure,
    runWithXvfb, wrapX, hx, if_true, List.cons_append, List.nil_append,
    eq_self_iff_true]
  cases hr : ctx.cfg.r with
  | rig =>
    simp only [hr]
    split
    · exact ⟨[], by simp [outSt], by simp⟩
    · split
      · exact transformedRecheck_trace _ _ _
      · split
        · rename_i err heq
          have h0 := hrig ⟨st.fs.mkdirP ctx.L.transformedClustersDir, st.cmds⟩
          rw [heq] at h0
          exact h0
        · rename_i v heq
          have h0 := hrig ⟨st.fs.mkdirP ctx.L.transformedClustersDir, st.cmds⟩
          rw [heq] at h0
          exact traceOnly_trans h0 (transformedRecheck_trace _ _ _)
  | nonrig =>
    simp only [hr]
    split
    · exact ⟨[], by simp [outSt], by simp⟩
    · split
      · exact ⟨[], by simp [outSt], by simp⟩
      · split
        · split
          · exact transformedRecheck_trace _ _ _
          · split
            · rename_i err heq
              have h1 := haf ⟨(st.fs.mkdirP
                ctx.L.transformedClustersDir).mkdirP
                (ctx.L.transformedClustersDir ++ ["tmp"]), st.cmds⟩
              rw [heq] at h1
              exact h1
            · rename_i v heq
              have h1 := haf ⟨(st.fs.mkdirP
                ctx.L.transformedClustersDir).mkdirP
                (ctx.L.transformedClustersDir ++ ["tmp"]), st.cmds⟩
              rw [heq] at h1
              exact traceOnly_trans h1 (transformedRecheck_trace _ _ _)
        · split
          · rename_i err heq
            have h0 := hnr ⟨(st.fs.mkdirP
              ctx.L.transformedClustersDir).mkdirP
              (ctx.L.transformedClustersDir ++ ["tmp"]), st.cmds⟩
            rw [heq] at h0
            exact h0
          · rename_i v heq
            have h0 := hnr ⟨(st.fs.mkdirP
              ctx.L.transformedClustersDir).mkdirP
              (ctx.L.transformedClustersDir ++ ["tmp"]), st.cmds⟩
            rw [heq] at h0
            split
            · exact traceOnly_trans h0 (transformedRecheck_trace _ _ _)
            · split
              · rename_i err2 heq2
                have h1 := haf v
                rw [heq2] at h1
                exact traceOnly_trans h0 h1
              · rename_i v2 heq2
                have h1 := haf v
                rw [heq2] at h1
                exact traceOnly_trans h0
                  (traceOnly_trans h1 (transformedRecheck_trace _ _ _))

theorem charsPre_append (l m : List Char) : charsPre l (l ++ m) = true := by
  induction l with
  | nil => rfl
  | cons a r ih => simp [charsPre, ih]

theorem strStarts_append (pre s : String) :
    strStarts (pre ++ s) pre = true := by
  simp only [strStarts, String.toList, String.data_append]
  exact charsPre_append _ _

theorem traceOnly_mono {base : List Cmd} {fin : St} {P Q : Cmd → Prop}
    (h : TraceOnly base fin P) (imp : ∀ c, P c → Q c) :
    TraceOnly base fin Q := by
  obtain ⟨l, e, p⟩ := h
  exact ⟨l, e, fun c hc => imp c (p c hc)⟩

theorem invLoop_trace (E : Eff) (ctx : Ctx) (tfm : FPath)
    (hx : ctx.cfg.x = true) :
    ∀ (names : List String) (st : St),
    TraceOnly st.cmds (outSt (invLoop E ctx tfm names st))
      (fun c => c.headD "" = "xvfb-run") := by
  intro names
  induction names with
  | nil => intro st; exact ⟨[], by simp [outSt, invLoop], by simp⟩
  | cons nm rest ih =>
    intro st
    simp only [invLoop, runWithXvfb, wrapX, hx, if_true, List.cons_append,
      List.nil_append, eq_self_iff_true]
    split
    · exact ih st
    · split
      · exact ih _
      · split
        · rename_i err heq
          have h0 := traceOnly_runCmdE_head E "xvfb-run"
            ("-a" :: ["wm_harden_transform.py", "-i", "-t", pathStr tfm,
              pathStr (ctx.L.separatedClustersDir ++ [nm]),
              pathStr (ctx.L.inverseTransformedDir ++ [nm]),
              pathStr ctx.cfg.s])
            ⟨st.fs.mkdirP (ctx.L.inverseTransformedDir ++ [nm]), st.cmds⟩
          rw [heq] at h0
          exact h0
        · rename_i v heq
          have h0 := traceOnly_runCmdE_head E "xvfb-run"
            ("-a" :: ["wm_harden_transform.py", "-i", "-t", pathStr tfm,
              pathStr (ctx.L.separatedClustersDir ++ [nm]),
              pathStr (ctx.L.inverseTransformedDir ++ [nm]),
              pathStr ctx.cfg.s])
            ⟨st.fs.mkdirP (ctx.L.inverseTransformedDir ++ [nm]), st.cmds⟩
          rw [heq] at h0
          exact traceOnly_trans h0 (ih v)

theorem inverseTransform_trace (E : Eff) (ctx : Ctx) (st : St)
    (hx : ctx.cfg.x = true) :
    TraceOnly st.cmds (outSt (inverseTransformStage E ctx st))
      (fun c => c.headD "" = "xvfb-run") := by
  simp only [inverseTransformStage]
  cases hct : ctx.cfg.t with
  | none =>
    simp only [hct]
    exact ⟨[], by simp [outSt], by simp⟩
  | some tp =>
    simp only [hct]
    split
    · exact ⟨[], by simp [outSt], by simp⟩
    · exact invLoop_trace E ctx tp hx _ _

theorem measureOne_trace (E : Eff) (ctx : Ctx) (r : String) (dir : FPath)
    (sc : String) (st : St) :
    TraceOnly st.cmds (outSt (measureOne E ctx r dir sc st))
      (fun c => c.headD "" = "wm_diffusion_measurements.py" ∧
        c.getLastD "" = sc) := by
  simp only [measureOne]
  split
  · exact ⟨[], by simp [outSt], by simp⟩
  · exact traceOnly_runCmdE _ _ _ _ (by simp)

theorem measurement_trace (E : Eff) (ctx : Ctx) (fin : FPath) (st : St) :
    TraceOnly st.cmds (outSt (measurementStage E ctx fin st))
      (fun c => c.headD "" = "wm_diffusion_measurements.py" ∧
        (ctx.cfg.x = true →
          strStarts (c.getLastD "") "xvfb-run -a " = true)) := by
  have himp : ∀ sc : String, (ctx.cfg.x = true →
      strStarts sc "xvfb-run -a " = true) → ∀ c : Cmd,
      (c.headD "" = "wm_diffusion_measurements.py" ∧ c.getLastD "" = sc) →
      (c.headD "" = "wm_diffusion_measurements.py" ∧
        (ctx.cfg.x = true →
          strStarts (c.getLastD "") "xvfb-run -a " = true)) := by
    intro sc hstart c hc
    exact ⟨hc.1, fun hxx => by rw [hc.2]; exact hstart hxx⟩
  simp only [measurementStage, bind, Except.bind]
  split
  · exact ⟨[], by simp [outSt], by simp⟩
  · rename_i hd
    set sc := (if ctx.cfg.x = true then
      "xvfb-run -a " ++ (pathStr ctx.cfg.s ++ " --launch " ++
        pathStr (ctx.cfg.m.getD [])) else
      pathStr ctx.cfg.s ++ " --launch " ++
        pathStr (ctx.cfg.m.getD [])) with hscdef
    have hstart : ctx.cfg.x = true → strStarts sc "xvfb-run -a " = true := by
      intro hxx
      rw [hscdef, if_pos hxx]
      exact strStarts_append _ _
    split
    · rename_i err heq
      have h0 := traceOnly_mono (measureOne_trace E ctx "commissural"
        (fin ++ ["tracts_commissural"]) sc st) (himp sc hstart)
      rw [heq] at h0
      exact h0
    · rename_i v1 heq1
      have h0 := traceOnly_mono (measureOne_trace E ctx "commissural"
        (fin ++ ["tracts_commissural"]) sc st) (himp sc hstart)
      rw [heq1] at h0
      split
      · rename_i err heq
        have h1 := traceOnly_mono (measureOne_trace E ctx "left"
          (fin ++ ["tracts_left_hemisphere"]) sc v1) (himp sc hstart)
        rw [heq] at h1
        exact traceOnly_trans h0 h1
      · rename_i v2 heq2
        have h1 := traceOnly_mono (measureOne_trace E ctx "left"
          (fin ++ ["tracts_left_hemisphere"]) sc v1) (himp sc hstart)
        rw [heq2] at h1
        split
        · rename_i err heq
          have h2 := traceOnly_mono (measureOne_trace E ctx "right"
            (fin ++ ["tracts_right_hemisphere"]) sc v2) (himp sc hstart)
          rw [heq] at h2
          exact traceOnly_trans h0 (traceOnly_trans h1 h2)
        · rename_i v3 heq3
          have h2 := traceOnly_mono (measureOne_trace E ctx "right"
            (fin ++ ["tracts_right_hemisphere"]) sc v2) (himp sc hstart)
          rw [heq3] at h2
          split
          · exact traceOnly_trans h0 (traceOnly_trans h1
              (traceOnly_trans h2 (⟨[], by simp [outSt], by simp⟩)))
          · have h3 := traceOnly_mono (traceOnly_runCmdE E
              ["wm_diffusion_measurements.py",
               pathStr ctx.L.anatomicalTractsDir,
               pathStr (ctx.L.anatomicalTractsDir ++
                 ["diffusion_measurements_anatomical_tracts.csv"]), sc] v3
              (fun c => c.headD "" = "wm_diffusion_measurements.py" ∧
                c.getLastD "" = sc) (by simp)) (himp sc hstart)
            exact traceOnly_trans h0 (traceOnly_trans h1
              (traceOnly_trans h2 h3))

/-- C3 (amended): with the virtual-display flag on, only the
harden-transform invocations (initial input transform, atlas-space
un-transform, per-hemisphere inverse transform) are prefixed with the
virtual-framebuffer launcher; registration, clustering, outlier removal,
hemisphere assessment, separation and aggregation commands are invoked
unwrapped, and the measurement commands are themselves unwrapped — only
their Slicer launch-string argument carries the launcher prefix. -/
theorem xvfb_wraps_only_harden :
    (∀ (E : Eff) (ctx : Ctx) (ai : FPath) (st : St),
      TraceOnly st.cmds (outStP (registrationStage E ctx ai st))
        (fun c => c.headD "" = "wm_register_to_atlas_new.py")) ∧
    (∀ (E : Eff) (ctx : Ctx) (rOut : FPath) (st : St),
      TraceOnly st.cmds (outSt (clusteringStage E ctx rOut st))
        (fun c => c.headD "" = "wm_cluster_from_atlas.py")) ∧
    (∀ (E : Eff) (ctx : Ctx) (fcId : String) (st : St),
      TraceOnly st.cmds (outSt (outlierStage E ctx fcId st))
        (fun c => c.headD "" = "wm_cluster_remove_outliers.py")) ∧
    (∀ (E : Eff) (ctx : Ctx) (fcId : String) (st : St),
      TraceOnly st.cmds (outSt (assessStage E ctx fcId st))
        (fun c => c.headD "" = "wm_assess_cluster_location_by_hemisphere.py")) ∧
    (∀ (E : Eff) (ctx : Ctx) (st : St),
      TraceOnly st.cmds (outSt (separationStage E ctx st))
        (fun c => c.headD "" = "wm_separate_clusters_by_hemisphere.py")) ∧
    (∀ (E : Eff) (ctx : Ctx) (fin : FPath) (st : St),
      TraceOnly st.cmds (outSt (aggregationStage E ctx fin st))
        (fun c => c.headD "" = ctx.cfg.pyExe)) ∧
    (∀ (E : Eff) (ctx : Ctx) (st : St), ctx.cfg.x = true →
      TraceOnly st.cmds (outStP (transformInputStage E ctx st))
        (fun c => c.headD "" = "xvfb-run")) ∧
    (∀ (E : Eff) (ctx : Ctx) (fcId : String) (st : St), ctx.cfg.x = true →
      TraceOnly st.cmds (outSt (transformClustersStage E ctx fcId st))
        (fun c => c.headD "" = "xvfb-run")) ∧
    (∀ (E : Eff) (ctx : Ctx) (st : St), ctx.cfg.x = true →
      TraceOnly st.cmds (outSt (inverseTransformStage E ctx st))
        (fun c => c.headD "" = "xvfb-run")) ∧
    (∀ (E : Eff) (ctx : Ctx) (fin : FPath) (st : St),
      TraceOnly st.cmds (outSt (measurementStage E ctx fin st))
        (fun c => c.headD "" = "wm_diffusion_measurements.py" ∧
          (ctx.cfg.x = true →
            strStarts (c.getLastD "") "xvfb-run -a " = true))) :=
  ⟨registration_trace, clustering_trace, outlier_trace, assess_trace,
   separation_trace, aggregation_trace, transformInput_trace,
   transformClusters_trace, inverseTransform_trace, measurement_trace⟩

/-- Counterexample for C3 as stated: with the virtual-display flag on, a
run that only needs to redo clustering invokes the clustering command
without the virtual-framebuffer prefix. -/
theorem virtual_display_not_wrapping_all :
    cfgX.x = true ∧
    runMain stubEff cfgX fsNoCluster = .ok ⟨fsNoCluster,
      [["wm_cluster_from_atlas.py", "-j", "1",
        "/out/subjectA/TractRegistration/subjectA/output_tractography/subjectA_reg.vtk",
        "/atlas/ORG-800FC-100HCP",
        "/out/subjectA/FiberClustering/InitialClusters", "-norender"]]⟩ ∧
    (["wm_cluster_from_atlas.py", "-j", "1",
      "/out/subjectA/TractRegistration/subjectA/output_tractography/subjectA_reg.vtk",
      "/atlas/ORG-800FC-100HCP",
      "/out/subjectA/FiberClustering/InitialClusters",
      "-norender"] : Cmd).headD "" ≠ "xvfb-run" := by
  refine ⟨by decide, by decide, by decide⟩

/-- Witness for the amended C3: a concrete virtual-display un-transform
stage only appends launcher-prefixed commands. -/
theorem xvfb_wraps_only_harden_witness :
    TraceOnly ([] : List Cmd)
      (outSt (transformClustersStage stubEff ctxX "subjectA_reg"
        ⟨fsNoCluster, []⟩))
      (fun c => c.headD "" = "xvfb-run") :=
  xvfb_wraps_only_harden.2.2.2.2.2.2.2.1 stubEff ctxX "subjectA_reg"
    ⟨fsNoCluster, []⟩ (by decide)

/-- Counterexample for C8 as stated: for the one input path whose derived
subject id is empty (the root), `main` performs no InvalidSubjectId check —
when that path is present as a file the run proceeds through the whole
layout derivation and pipeline with the empty subject id and returns
success. -/
theorem empty_subject_id_proceeds :
    pyStem (pname cfgRootIn.i) = "" ∧
    runMain stubEff cfgRootIn fsRootIn = .ok ⟨fsRootIn, []⟩ := by
  constructor
  · decide
  · decide

/-- C8 (amended): the script never validates the derived subject id; it is
the stem of the input file's name, used as-is, and it is nonempty for every
input path whose final name component is nonempty — so the empty case can
only arise for the filesystem root, which the input-file existence check
rejects first on a real filesystem. -/
theorem nonempty_input_name_gives_nonempty_subject (p : FPath)
    (h : pname p ≠ "") : pyStem (pname p) ≠ "" := by
  set s := pname p with hs
  clear_value s
  simp only [pyStem]
  cases hidx : lastDotIdx s.toList with
  | none => simp only [hidx]; exact h
  | some i =>
    simp only [hidx]
    split
    · rename_i hcond
      obtain ⟨hi, _⟩ := hcond
      intro heq
      have htake : List.take i s.toList = [] := congrArg String.data heq
      have hlen : s.toList ≠ [] := by
        intro hnil
        apply h
        have : s = String.mk [] := by
          cases s with
          | mk data => simp only [String.toList] at hnil; rw [hnil]
        rw [this]
      cases hcs : s.toList with
      | nil => exact hlen hcs
      | cons a l =>
        rw [hcs] at htake
        cases i with
        | zero => omega
        | succ k => simp [List.take] at htake
    · exact h

/-- Witness for the amended C8 at a concrete input name. -/
theorem nonempty_input_name_gives_nonempty_subject_witness :
    pyStem (pname ["data", "subjectA.vtk"]) ≠ "" :=
  nonempty_input_name_gives_nonempty_subject ["data", "subjectA.vtk"]
    (by decide)

theorem transformInputStage_none (E : Eff) (ctx : Ctx) (st : St)
    (h : ctx.cfg.t = none) :
    transformInputStage E ctx st = .ok (st, ctx.cfg.i) := by
  simp only [transformInputStage, h]

theorem transformInputStage_stub (ctx : Ctx) (st : St) (tp : FPath)
    (h : ctx.cfg.t = some tp) (h1 : st.fs.isFile tp = true)
    (h2 : st.fs.isDir ctx.L.transformedTractsDir = true)
    (h3 : st.fs.isFile (ctx.L.transformedTractsDir ++
      [pname ctx.cfg.i]) = true) :
    transformInputStage stubEff ctx st = .ok
      (⟨st.fs, st.cmds ++ [wrapX ctx.cfg.x (cmdHardenInputOf ctx tp)]⟩,
       ctx.L.transformedTractsDir ++ [pname ctx.cfg.i]) := by
  simp only [transformInputStage, h, h1, mkdirP_eq_self h2, runWithXvfb,
    runCmdE, stubEff, bind, Except.bind, h3, cmdHardenInputOf,
    Bool.not_true, Bool.not_false, Bool.false_eq_true, if_false, if_true]

theorem registrationStage_skip_rig (E : Eff) (ctx : Ctx) (ai : FPath)
    (st : St)
    (hr : ctx.cfg.r = .rig)
    (hd : st.fs.isDir ctx.L.registrationDir = true)
    (h1 : st.fs.isFile (ctx.regSubjectDir ++ ["output_tractography",
      ctx.subjectId ++ "_reg.vtk"]) = true) :
    registrationStage E ctx ai st = .ok (st, ctx.regSubjectDir ++
      ["output_tractography", ctx.subjectId ++ "_reg.vtk"]) := by
  simp only [registrationStage, hr, mkdirP_eq_self hd, h1, bind, Except.bind,
    pure, Except.pure, if_true, Bool.not_true, Bool.false_eq_true, if_false]

theorem registrationStage_skip_nonrig (E : Eff) (ctx : Ctx) (ai : FPath)
    (st : St)
    (hr : ctx.cfg.r = .nonrig)
    (hd : st.fs.isDir ctx.L.registrationDir = true)
    (h1 : st.fs.isFile (ctx.regSubjectDir ++ ["output_tractography",
      ctx.subjectId ++ "_reg.vtk"]) = true)
    (h2 : st.fs.isFile (ctx.nonrigSubject ++ ["output_tractography",
      ctx.subjectId ++ "_reg_reg.vtk"]) = true) :
    registrationStage E ctx ai st = .ok (st, ctx.nonrigSubject ++
      ["output_tractography", ctx.subjectId ++ "_reg_reg.vtk"]) := by
  simp only [registrationStage, hr, mkdirP_eq_self hd, h1, h2, bind,
    Except.bind, pure, Except.pure, if_true, Bool.not_true,
    Bool.false_eq_true, if_false]

theorem clusteringStage_skip (E : Eff) (ctx : Ctx) (rOut : FPath) (st : St)
    (hd : st.fs.isDir ctx.L.initialClustersDir = true)
    (h1 : st.fs.isFile (pjoin ctx.L.initialClustersDir
      (pyStem (pname rOut)) ++ ["cluster_00800.vtp"]) = true) :
    clusteringStage E ctx rOut st = .ok st := by
  simp only [clusteringStage, mkdirP_eq_self hd, h1, if_true]

theorem outlierStage_skip (E : Eff) (ctx : Ctx) (fcId : String) (st : St)
    (hd : st.fs.isDir ctx.L.outlierClustersDir = true)
    (h1 : st.fs.isFile (ctx.outlierDirFor fcId ++
      ["cluster_00800.vtp"]) = true) :
    outlierStage E ctx fcId st = .ok st := by
  simp only [outlierStage, mkdirP_eq_self hd, h1, if_true]

theorem assessStage_skip (E : Eff) (ctx : Ctx) (fcId : String) (st : St)
    (h1 : st.fs.isFile (ctx.outlierDirFor fcId ++
      ["cluster_location_by_hemisphere.log"]) = true) :
    assessStage E ctx fcId st = .ok st := by
  simp only [assessStage, h1, if_true]

theorem transformClustersStage_skip_rig (E : Eff) (ctx : Ctx)
    (fcId : String) (st : St)
    (hr : ctx.cfg.r = .rig)
    (hd : st.fs.isDir ctx.L.transformedClustersDir = true)
    (htfm : st.fs.isFile (ctx.regSubjectDir ++ ["output_tractography",
      "itk_txform_" ++ ctx.subjectId ++ ".tfm"]) = true)
    (h1 : st.fs.isFile (ctx.L.transformedClustersDir ++
      ["cluster_00800.vtp"]) = true) :
    transformClustersStage E ctx fcId st = .ok st := by
  simp only [transformClustersStage, hr, mkdirP_eq_self hd, htfm, h1,
    transformedRecheck, bind, Except.bind, pure, Except.pure, if_true,
    Bool.not_true, Bool.false_eq_true, if_false]

theorem transformClustersStage_skip_nonrig (E : Eff) (ctx : Ctx)
    (fcId : String) (st : St)
    (hr : ctx.cfg.r = .nonrig)
    (hd : st.fs.isDir ctx.L.transformedClustersDir = true)
    (htn : st.fs.isFile (ctx.nonrigSubject ++ ["output_tractography",
      "itk_txform_" ++ ctx.subjectId ++ "_reg.tfm"]) = true)
    (hta : st.fs.isFile (ctx.regSubjectDir ++ ["output_tractography",
      "itk_txform_" ++ ctx.subjectId ++ ".tfm"]) = true)
    (htd : st.fs.isDir (ctx.L.transformedClustersDir ++ ["tmp"]) = true)
    (h0 : st.fs.isFile ((ctx.L.transformedClustersDir ++ ["tmp"]) ++
      ["cluster_00800.vtp"]) = true)
    (h1 : st.fs.isFile (ctx.L.transformedClustersDir ++
      ["cluster_00800.vtp"]) = true) :
    transformClustersStage E ctx fcId st = .ok st := by
  simp only [transformClustersStage, hr, mkdirP_eq_self hd,
    mkdirP_eq_self htd, htn, hta, h0, h1, transformedRecheck, bind,
    Except.bind, pure, Except.pure, if_true, Bool.not_true,
    Bool.false_eq_true, if_false]

theorem separationStage_skip (E : Eff) (ctx : Ctx) (st : St)
    (hd : st.fs.isDir ctx.L.separatedClustersDir = true)
    (h1 : st.fs.isFile (ctx.L.separatedClustersDir ++
      ["tracts_commissural", "cluster_00800.vtp"]) = true) :
    separationStage E ctx st = .ok st := by
  simp only [separationStage, mkdirP_eq_self hd, h1, if_true]

theorem invLoop_skip (E : Eff) (ctx : Ctx) (tfm : FPath) :
    ∀ (names : List String) (st : St),
    (∀ nm ∈ names, st.fs.isDir (ctx.L.separatedClustersDir ++ [nm]) = true →
      st.fs.isDir (ctx.L.inverseTransformedDir ++ [nm]) = true ∧
      st.fs.isFile ((ctx.L.inverseTransformedDir ++ [nm]) ++
        ["cluster_00800.vtp"]) = true) →
    invLoop E ctx tfm names st = .ok st := by
  intro names
  induction names with
  | nil => intro st _; rfl
  | cons nm rest ih =>
    intro st hall
    cases hdir : st.fs.isDir (ctx.L.separatedClustersDir ++ [nm]) with
    | false =>
      simp only [invLoop, hdir, Bool.not_false, if_true]
      exact ih st fun m hm => hall m (by simp [hm])
    | true =>
      obtain ⟨hod, hof⟩ := hall nm (by simp) hdir
      simp only [invLoop, hdir, Bool.not_true, Bool.false_eq_true, if_false,
        mkdirP_eq_self hod, hof, if_true]
      exact ih st fun m hm => hall m (by simp [hm])

theorem inverseTransformStage_skip (E : Eff) (ctx : Ctx) (st : St)
    (hful : ∀ tp, ctx.cfg.t = some tp →
      st.fs.isFile tp = true ∧
      st.fs.isDir ctx.L.inverseTransformedDir = true ∧
      (∀ nm ∈ st.fs.childNames ctx.L.separatedClustersDir,
        st.fs.isDir (ctx.L.separatedClustersDir ++ [nm]) = true →
        st.fs.isDir (ctx.L.inverseTransformedDir ++ [nm]) = true ∧
        st.fs.isFile ((ctx.L.inverseTransformedDir ++ [nm]) ++
          ["cluster_00800.vtp"]) = true)) :
    inverseTransformStage E ctx st = .ok st := by
  cases hct : ctx.cfg.t with
  | none => simp only [inverseTransformStage, hct]
  | some tp =>
    obtain ⟨h1, h2, h3⟩ := hful tp hct
    simp only [inverseTransformStage, hct, h1, mkdirP_eq_self h2,
      Bool.not_true, Bool.false_eq_true, if_false]
    exact invLoop_skip E ctx tp _ st h3

theorem measureOne_skip (E : Eff) (ctx : Ctx) (r : String) (dir : FPath)
    (sc : String) (st : St)
    (h1 : st.fs.isFile (ctx.L.separatedClustersDir ++
      ["diffusion_measurements_" ++ r ++ ".csv"]) = true) :
    measureOne E ctx r dir sc st = .ok st := by
  simp only [measureOne, h1, if_true]

theorem aggregationStage_skip (E : Eff) (ctx : Ctx) (fin : FPath) (st : St)
    (hd : st.fs.isDir ctx.L.anatomicalTractsDir = true)
    (h1 : st.fs.isFile (ctx.L.anatomicalTractsDir ++
      ["T_UF_right.vtp"]) = true) :
    aggregationStage E ctx fin st = .ok st := by
  simp only [aggregationStage, mkdirP_eq_self hd, h1, if_true]

theorem measurementStage_skip (E : Eff) (ctx : Ctx) (fin : FPath) (st : St)
    (hcsv : ctx.cfg.d = true →
      st.fs.isFile (ctx.L.separatedClustersDir ++
        ["diffusion_measurements_commissural.csv"]) = true ∧
      st.fs.isFile (ctx.L.separatedClustersDir ++
        ["diffusion_measurements_left.csv"]) = true ∧
      st.fs.isFile (ctx.L.separatedClustersDir ++
        ["diffusion_measurements_right.csv"]) = true ∧
      st.fs.isFile (ctx.L.anatomicalTractsDir ++
        ["diffusion_measurements_anatomical_tracts.csv"]) = true) :
    measurementStage E ctx fin st = .ok st := by
  cases hd : ctx.cfg.d with
  | false => simp only [measurementStage, hd, Bool.not_false, if_true]
  | true =>
    obtain ⟨h1, h2, h3, h4⟩ := hcsv hd
    have e1 : ("diffusion_measurements_" ++ "commissural" ++ ".csv") =
      "diffusion_measurements_commissural.csv" := rfl
    have e2 : ("diffusion_measurements_" ++ "left" ++ ".csv") =
      "diffusion_measurements_left.csv" := rfl
    have e3 : ("diffusion_measurements_" ++ "right" ++ ".csv") =
      "diffusion_measurements_right.csv" := rfl
    simp only [measurementStage, hd, Bool.not_true, Bool.false_eq_true,
      if_false, bind, Except.bind]
    rw [measureOne_skip E ctx "commissural" (fin ++ ["tracts_commissural"])
      _ st (by rw [e1]; exact h1)]
    simp only [measureOne_skip E ctx "left" (fin ++ ["tracts_left_hemisphere"])
        (if ctx.cfg.x = true then "xvfb-run -a " ++ (pathStr ctx.cfg.s ++
          " --launch " ++ pathStr (ctx.cfg.m.getD [])) else
          pathStr ctx.cfg.s ++ " --launch " ++ pathStr (ctx.cfg.m.getD []))
        st (by rw [e2]; exact h2),
      measureOne_skip E ctx "right" (fin ++ ["tracts_right_hemisphere"])
        (if ctx.cfg.x = true then "xvfb-run -a " ++ (pathStr ctx.cfg.s ++
          " --launch " ++ pathStr (ctx.cfg.m.getD [])) else
          pathStr ctx.cfg.s ++ " --launch " ++ pathStr (ctx.cfg.m.getD []))
        st (by rw [e3]; exact h3),
      h4, if_true]

theorem applyCleanup_zero (L : Layout) (fs : FS) : applyCleanup L 0 fs = fs := by
  simp [applyCleanup]

theorem exceptBind_ok {ε α β : Type} (a : α) (f : α → Except ε β) :
    (Except.ok (ε := ε) a >>= f) = f a := rfl

set_option maxHeartbeats 1000000 in
theorem pipelineRest_ready (E : Eff) (cfg : Config) (fs : FS)
    (hready : SecondRunReady cfg fs) (hc : cfg.c = 0)
    (rd fd clf : FPath) (cs : List Cmd) (ai : FPath) :
    pipelineRest E ⟨cfg, rd, fd, clf, subjIdOf cfg, layoutOf cfg⟩
      ⟨fs, cs⟩ ai = .ok ⟨fs, cs⟩ := by
  set c0 : Ctx := (⟨cfg, rd, fd, clf, subjIdOf cfg, layoutOf cfg⟩ : Ctx)
    with hc0
  have hfulI : ∀ tp, cfg.t = some tp →
      fs.isFile tp = true ∧
      fs.isDir (layoutOf cfg).inverseTransformedDir = true ∧
      (∀ nm ∈ fs.childNames (layoutOf cfg).separatedClustersDir,
        fs.isDir ((layoutOf cfg).separatedClustersDir ++ [nm]) = true →
        fs.isDir ((layoutOf cfg).inverseTransformedDir ++ [nm]) = true ∧
        fs.isFile (((layoutOf cfg).inverseTransformedDir ++ [nm]) ++
          ["cluster_00800.vtp"]) = true) := by
    intro tp htp
    exact ⟨hready.tFile tp htp, hready.invDirD (by rw [htp]; rfl),
      hready.invOut (by rw [htp]; rfl)⟩
  have hcsvI : cfg.d = true →
      fs.isFile ((layoutOf cfg).separatedClustersDir ++
        ["diffusion_measurements_commissural.csv"]) = true ∧
      fs.isFile ((layoutOf cfg).separatedClustersDir ++
        ["diffusion_measurements_left.csv"]) = true ∧
      fs.isFile ((layoutOf cfg).separatedClustersDir ++
        ["diffusion_measurements_right.csv"]) = true ∧
      fs.isFile ((layoutOf cfg).anatomicalTractsDir ++
        ["diffusion_measurements_anatomical_tracts.csv"]) = true :=
    fun hd => ⟨hready.csvCom hd, hready.csvLeft hd, hready.csvRight hd,
      hready.csvTracts hd⟩
  cases hr : cfg.r with
  | rig =>
    have hco := hready.clusterOut
    simp only [fcCaseIdOf, regOutputOf, hr] at hco
    have hoo := hready.outlierOut
    simp only [outlierDirOf, fcCaseIdOf, regOutputOf, hr] at hoo
    have hao := hready.assessOut
    simp only [outlierDirOf, fcCaseIdOf, regOutputOf, hr] at hao
    simp only [pipelineRest]
    rw [registrationStage_skip_rig E c0 ai ⟨fs, cs⟩ hr hready.regDirD
      hready.affineOut]
    simp only [exceptBind_ok]
    rw [clusteringStage_skip E c0 (c0.regSubjectDir ++
      ["output_tractography", c0.subjectId ++ "_reg.vtk"]) ⟨fs, cs⟩
      hready.initDirD hco]
    simp only [exceptBind_ok]
    rw [outlierStage_skip E c0 (pyStem (pname (c0.regSubjectDir ++
      ["output_tractography", c0.subjectId ++ "_reg.vtk"]))) ⟨fs, cs⟩
      hready.outlDirD hoo]
    simp only [exceptBind_ok]
    rw [assessStage_skip E c0 (pyStem (pname (c0.regSubjectDir ++
      ["output_tractography", c0.subjectId ++ "_reg.vtk"]))) ⟨fs, cs⟩ hao]
    simp only [exceptBind_ok]
    rw [transformClustersStage_skip_rig E c0 (pyStem (pname
      (c0.regSubjectDir ++ ["output_tractography",
        c0.subjectId ++ "_reg.vtk"]))) ⟨fs, cs⟩ hr hready.tcdDirD
      (hready.tfmRig hr) hready.transformedOut]
    simp only [exceptBind_ok]
    rw [separationStage_skip E c0 ⟨fs, cs⟩ hready.sepDirD
      hready.separatedOut]
    simp only [exceptBind_ok]
    rw [inverseTransformStage_skip E c0 ⟨fs, cs⟩ hfulI]
    simp only [exceptBind_ok]
    rw [aggregationStage_skip E c0 (if c0.cfg.t.isSome then
      c0.L.inverseTransformedDir else c0.L.separatedClustersDir) ⟨fs, cs⟩
      hready.anatDirD hready.appendOut]
    simp only [exceptBind_ok]
    rw [measurementStage_skip E c0 (if c0.cfg.t.isSome then
      c0.L.inverseTransformedDir else c0.L.separatedClustersDir) ⟨fs, cs⟩
      hcsvI]
    simp only [exceptBind_ok]
    rw [show c0.cfg.c = 0 from hc, applyCleanup_zero]
  | nonrig =>
    have hco := hready.clusterOut
    simp only [fcCaseIdOf, regOutputOf, hr] at hco
    have hoo := hready.outlierOut
    simp only [outlierDirOf, fcCaseIdOf, regOutputOf, hr] at hoo
    have hao := hready.assessOut
    simp only [outlierDirOf, fcCaseIdOf, regOutputOf, hr] at hao
    simp only [pipelineRest]
    rw [registrationStage_skip_nonrig E c0 ai ⟨fs, cs⟩ hr hready.regDirD
      hready.affineOut (hready.nonrigOut hr)]
    simp only [exceptBind_ok]
    rw [clusteringStage_skip E c0 (c0.nonrigSubject ++
      ["output_tractography", c0.subjectId ++ "_reg_reg.vtk"]) ⟨fs, cs⟩
      hready.initDirD hco]
    simp only [exceptBind_ok]
    rw [outlierStage_skip E c0 (pyStem (pname (c0.nonrigSubject ++
      ["output_tractography", c0.subjectId ++ "_reg_reg.vtk"]))) ⟨fs, cs⟩
      hready.outlDirD hoo]
    simp only [exceptBind_ok]
    rw [assessStage_skip E c0 (pyStem (pname (c0.nonrigSubject ++
      ["output_tractography", c0.subjectId ++ "_reg_reg.vtk"]))) ⟨fs, cs⟩
      hao]
    simp only [exceptBind_ok]
    rw [transformClustersStage_skip_nonrig E c0 (pyStem (pname
      (c0.nonrigSubject ++ ["output_tractography",
        c0.subjectId ++ "_reg_reg.vtk"]))) ⟨fs, cs⟩ hr hready.tcdDirD
      (hready.tfmNonrig hr) (hready.tfmAffine hr) (hready.tempDirD hr)
      (hready.tempOut hr) hready.transformedOut]
    simp only [exceptBind_ok]
    rw [separationStage_skip E c0 ⟨fs, cs⟩ hready.sepDirD
      hready.separatedOut]
    simp only [exceptBind_ok]
    rw [inverseTransformStage_skip E c0 ⟨fs, cs⟩ hfulI]
    simp only [exceptBind_ok]
    rw [aggregationStage_skip E c0 (if c0.cfg.t.isSome then
      c0.L.inverseTransformedDir else c0.L.separatedClustersDir) ⟨fs, cs⟩
      hready.anatDirD hready.appendOut]
    simp only [exceptBind_ok]
    rw [measurementStage_skip E c0 (if c0.cfg.t.isSome then
      c0.L.inverseTransformedDir else c0.L.separatedClustersDir) ⟨fs, cs⟩
      hcsvI]
    simp only [exceptBind_ok]
    rw [show c0.cfg.c = 0 from hc, applyCleanup_zero]

/-- C1 (amended): a second run with identical configuration against the
state a successful tier-0 first run leaves behind invokes zero external
commands and leaves the filesystem untouched — except that when a
size-matching transform is configured the initial harden-transform stage,
which has no skip-if-output-exists check, is re-invoked (and only it). -/
theorem second_run_skips_all (E : Eff) (cfg : Config) (fs : FS)
    (hready : SecondRunReady cfg fs) (hc : cfg.c = 0) :
    (cfg.t = none → runMain E cfg fs = .ok ⟨fs, []⟩) ∧
    (∀ tp, cfg.t = some tp → runMain stubEff cfg fs =
      .ok ⟨fs, [wrapX cfg.x ["wm_harden_transform.py", "-t", pathStr tp,
        pathStr cfg.i.dropLast,
        pathStr (layoutOf cfg).transformedTractsDir, pathStr cfg.s]]⟩) := by
  have hdm : (cfg.d && cfg.m.isNone) = false := by
    cases hd2 : cfg.d with
    | false => rfl
    | true => simp [hready.dm hd2]
  have ho : fs.isDir cfg.o = true := hready.outRootDir
  have hcase : fs.isDir (mkLayout cfg.o
    (pyStem (pname cfg.i))).outputCase = true := hready.caseDir
  constructor
  · intro htn
    simp only [runMain, hready.input, hready.slicer, hdm, hready.atlasOk,
      hready.locOk, Bool.not_true, Bool.false_eq_true, if_false,
      mkdirP_eq_self ho, mkdirP_eq_self hcase]
    rw [transformInputStage_none E ⟨cfg, hready.rd, hready.fd, hready.clf,
      pyStem (pname cfg.i), mkLayout cfg.o (pyStem (pname cfg.i))⟩
      ⟨fs, []⟩ htn]
    simp only [exceptBind_ok]
    exact pipelineRest_ready E cfg fs hready hc hready.rd hready.fd
      hready.clf [] cfg.i
  · intro tp htp
    simp only [runMain, hready.input, hready.slicer, hdm, hready.atlasOk,
      hready.locOk, Bool.not_true, Bool.false_eq_true, if_false,
      mkdirP_eq_self ho, mkdirP_eq_self hcase]
    rw [transformInputStage_stub ⟨cfg, hready.rd, hready.fd, hready.clf,
      pyStem (pname cfg.i), mkLayout cfg.o (pyStem (pname cfg.i))⟩
      ⟨fs, []⟩ tp htp (hready.tFile tp htp)
      (hready.ttdDirD (by rw [htp]; rfl))
      (hready.transformedInput (by rw [htp]; rfl))]
    simp only [exceptBind_ok]
    exact pipelineRest_ready stubEff cfg fs hready hc hready.rd hready.fd
      hready.clf [wrapX cfg.x (cmdHardenInputOf ⟨cfg, hready.rd, hready.fd,
        hready.clf, subjIdOf cfg, layoutOf cfg⟩ tp)]
      ((layoutOf cfg).transformedTractsDir ++ [pname cfg.i])

/-- Counterexample for C1 as stated: against the complete post-first-run
state of a configuration with a size-matching transform, the second run
invokes the harden-transform command again — one external command, not
zero. -/
theorem second_run_reruns_harden_transform :
    cfgT.t = some ["xf", "t0.tfm"] ∧
    runMain stubEff cfgT fsDoneT = .ok ⟨fsDoneT,
      [["wm_harden_transform.py", "-t", "/xf/t0.tfm", "/data",
        "/out/subjectA/TransformedTracts", "/apps/Slicer"]]⟩ := by
  constructor
  · decide
  · decide

/-- Witness for the amended C1 at the concrete baseline configuration and
its post-run state: the second run invokes nothing and returns success. -/
theorem second_run_skips_all_witness :
    runMain stubEff cfgBase fsDone = .ok ⟨fsDone, []⟩ := by
  have hready : SecondRunReady cfgBase fsDone := by
    apply SecondRunReady.mk ["atlas", "ORG-RegAtlas-100HCP"]
      ["atlas", "ORG-800FC-100HCP"]
      ["atlas", "ORG-800FC-100HCP", "cluster_hemisphere_location.txt"] <;>
    first
      | exact fun tp htp => Option.noConfusion htp
      | exact fun h => Bool.noConfusion h
      | decide
  exact (second_run_skips_all stubEff cfgBase fsDone hready rfl).1 rfl
